import Mathlib

/-!
# cloudflare-d1-go: the local sqlite emulator (`mock/mock.go`)

A shallow embedding of `MockClient` and of the types of `cloudflared1.go` and
`utils/request.go` it returns.

Conventions of the embedding.

* Go's `(resp, err)` result pair is an `Outcome`: the two nullable components, or a
  run-time panic.
* Go slices keep the difference between the nil slice and an empty non-nil slice.
* Go maps are association lists; `GoMap.set` and `GoMap.delete` act on every entry of
  the key, so a lookup after them is what Go's map gives.  The order in which `range`
  visits a map is chosen by the runtime and is supplied by the environment.
* Everything outside the repository (the uuid package, `database/sql` and the sqlite
  engine, the file system, the clock, the rune case table) is a field of `Env`, a
  transition on an arbitrary world state `σ`.  Theorems hold for every environment.
* `int` is 64 bits wide, so the conversion `int(affected)` of an `int64` is the identity.
-/

namespace D1

/-! ## Go data -/

/-- Go `error` values, represented by their `Error()` text. -/
abbrev GoError := String

/-- Go slice: the nil slice, or a non-nil slice with the listed elements. -/
inductive Slice (α : Type) where
  | null : Slice α
  | elems (l : List α) : Slice α
deriving DecidableEq, Repr

namespace Slice

/-- Elements of a slice; the nil slice has none. -/
def toList {α : Type} : Slice α → List α
  | null => []
  | elems l => l

/-- Go `len(s)`. -/
def len {α : Type} (s : Slice α) : Nat := s.toList.length

/-- Go `append(s, x)`: the result is never nil. -/
def append {α : Type} (s : Slice α) (x : α) : Slice α := elems (s.toList ++ [x])

/-- Go `s == nil`. -/
def isNil {α : Type} : Slice α → Bool
  | null => true
  | elems _ => false

end Slice

/-- Go `map[string]ν`, as an association list. -/
abbrev GoMap (ν : Type) := List (String × ν)

namespace GoMap

/-- Go `v, ok := m[k]`. -/
def get {ν : Type} : GoMap ν → String → Option ν
  | [], _ => none
  | (k1, v) :: rest, k => if k1 = k then some v else get rest k

/-- Go `delete(m, k)`. -/
def delete {ν : Type} (m : GoMap ν) (k : String) : GoMap ν :=
  m.filter (fun e => decide (e.1 ≠ k))

/-- Go `m[k] = v`. -/
def set {ν : Type} (m : GoMap ν) (k : String) (v : ν) : GoMap ν :=
  (k, v) :: delete m k

end GoMap

/-- Result of a Go function of type `(*T, error)`: it returns the pair, or panics. -/
inductive Outcome (α : Type) where
  | returned (resp : Option α) (err : Option GoError) : Outcome α
  | panicked (msg : String) : Outcome α
deriving DecidableEq, Repr

/-! ## `cloudflared1.go` and `utils/request.go` -/

/-- A float64 literal of the source, kept as a decimal `mantissa * 10 ^ exponent`. -/
structure Float64 where
  mantissa : Int
  exponent : Int
deriving DecidableEq, Repr

/-- `uuid.UUID`, a 128-bit value; the zero value is the zero UUID. -/
structure UUID where
  val : Nat
deriving DecidableEq, Repr

/-- `type ReadReplicationMode int`. -/
abbrev ReadReplicationMode := Int

/-- `ReadReplicationModeAuto`, `iota` = 0. -/
def ReadReplicationModeAuto : ReadReplicationMode := 0

/-- `ReadReplicationModeDisabled`, `iota` = 1. -/
def ReadReplicationModeDisabled : ReadReplicationMode := 1

structure ReadReplication where
  Mode : ReadReplicationMode
deriving DecidableEq, Repr

structure DBSettings where
  Replication : ReadReplicationMode
deriving DecidableEq, Repr

structure D1Database where
  CreatedAt : String
  FileSize : Int
  Name : String
  NumTables : Int
  ReadReplication : ReadReplication
  UUID : UUID
  Version : String
deriving DecidableEq, Repr

/-- The zero value `cloudflared1.D1Database{}`. -/
def D1Database.zero : D1Database :=
  { CreatedAt := "", FileSize := 0, Name := "", NumTables := 0,
    ReadReplication := { Mode := 0 }, UUID := { val := 0 }, Version := "" }

structure Timings where
  SQLDurationMS : Float64
deriving DecidableEq, Repr

structure Meta where
  ChangedDB : Bool
  Changes : Int
  Duration : Float64
  LastRowID : Int
  RowsRead : Int
  RowsWritten : Int
  ServedByPrimary : Bool
  ServedByRegion : String
  SizeAfter : Int
  Timings : Option Timings
deriving DecidableEq, Repr

/-- A dynamically typed column value, as `database/sql` hands it to an `interface{}`
destination.  Text and byte sequences are both byte strings. -/
inductive Value where
  | null : Value
  | int (i : Int) : Value
  | float (f : Float64) : Value
  | bool (b : Bool) : Value
  | bytes (b : List Nat) : Value
  | text (s : List Nat) : Value
  | time (t : String) : Value
deriving DecidableEq, Repr

/-- A row record, `map[string]interface{}`. -/
abbrev Row := GoMap Value

/-- The `Results any` field of a query result of the emulator: the nil interface, or a
`[]any` slice of row records. -/
inductive Results where
  | nilInterface : Results
  | rows (s : Slice Row) : Results
deriving DecidableEq, Repr

/-- Go `len` of the results payload, as `assert.Len` measures it. -/
def Results.len : Results → Nat
  | nilInterface => 0
  | rows s => s.len

structure QueryResult where
  Meta : Meta
  Results : Results
  Success : Bool
deriving DecidableEq, Repr

structure DeleteResult where
deriving DecidableEq, Repr

/-- Element type of `APIResponse.Errors`. -/
structure APIError where
  Code : Int
  Message : String
deriving DecidableEq, Repr

/-- `utils.APIResponse[T]`. -/
structure APIResponse (T : Type) where
  Result : T
  Success : Bool
  Messages : Slice String
  Errors : Slice APIError
deriving DecidableEq, Repr

/-! ## The environment: uuid, database/sql, os, time, the Go runtime -/

/-- A non-nil `*sql.DB`. -/
structure Conn where
  handle : Nat
deriving DecidableEq, Repr

/-- One cursor position for which `rows.Next()` reports true: what `rows.Scan` gives
there, into one `interface{}` destination per column, and into a single `*int`. -/
structure Cursor where
  scanAny : Except GoError (List Value)
  scanInt : Except GoError Int

/-- A `*sql.Rows`: the result of `Columns()`, the cursor positions in cursor order, and
`rows.Err()`, the error, if any, on which the engine ended the iteration (then
`rows.Next()` reports false after the positions listed). -/
structure Rows where
  Columns : Except GoError (List String)
  cursor : List Cursor
  Err : Option GoError := none

/-- Outcome of a method call on a `sql.Result`: a value, an error, or a run-time panic
(the driver handed back a nil result, as it does for a text that holds no statement). -/
inductive DriverCall (α : Type) where
  | ok (a : α) : DriverCall α
  | error (e : GoError) : DriverCall α
  | panic (msg : String) : DriverCall α

/-- A `sql.Result`. -/
structure Result where
  LastInsertId : DriverCall Int
  RowsAffected : DriverCall Int

/-- An `fs.FileInfo`: `ModTime().Format(time.RFC3339)` and `Size()`. -/
structure FileInfo where
  ModTime : String
  Size : Int
deriving DecidableEq, Repr

/-- An error of `os.Remove`, with the answer of `errors.Is(err, os.ErrNotExist)`. -/
structure OsError where
  text : GoError
  notExist : Bool
deriving DecidableEq, Repr

/-- Everything the emulator calls outside the repository, over a world state `σ`. -/
structure Env (σ : Type) where
  /-- Go `uuid.New()`. -/
  uuidNew : σ → UUID × σ
  /-- Go `uid.String()`. -/
  uuidString : UUID → String
  /-- Go `uuid.Parse(s)`. -/
  uuidParse : String → Except GoError UUID
  /-- Go `filepath.Join(a, b)`. -/
  filepathJoin : String → String → String
  /-- Go `filepath.Abs(p)`. -/
  filepathAbs : σ → String → Except GoError String × σ
  /-- Go `sql.Open(driver, path)`. -/
  sqlOpen : σ → String → String → Except GoError Conn × σ
  /-- Go `db.Close()` on a non-nil `*sql.DB`. -/
  dbClose : σ → Conn → Option GoError × σ
  /-- Go `db.Query(query, params...)`. -/
  dbQuery : σ → Conn → String → List Value → Except GoError Rows × σ
  /-- Go `rows.Close()`. -/
  rowsClose : σ → Rows → σ
  /-- Go `db.Exec(query, params...)`. -/
  dbExec : σ → Conn → String → List Value → Except GoError Result × σ
  /-- Go `os.Remove(path)`. -/
  osRemove : σ → String → Option OsError × σ
  /-- Go `os.Stat(path)`. -/
  osStat : σ → String → Except GoError FileInfo × σ
  /-- Go `time.Now().Format(time.RFC3339)`. -/
  timeNow : σ → String × σ
  /-- The order in which one `range` loop visits the entries of `NameIDMap`. -/
  rangeNameIDMap : σ → GoMap String → GoMap String × σ
  /-- The order in which one `range` loop visits the entries of `ConnMap`. -/
  rangeConnMap : σ → GoMap Conn → GoMap Conn × σ
  /-- The lower-case table of package unicode for runes above `MaxASCII`. -/
  lowerTable : Char → Char

/-- Go `unicode.ToLower(r)`: the ASCII letters directly, the table above `MaxASCII`. -/
def unicodeToLower (tbl : Char → Char) (r : Char) : Char :=
  if r.toNat ≤ 127 then
    if 65 ≤ r.toNat ∧ r.toNat ≤ 90 then Char.ofNat (r.toNat + 32) else r
  else tbl r

/-- Go `strings.ToLower(s)`, on the runes of `s`. -/
def stringsToLower (tbl : Char → Char) (s : String) : String :=
  ⟨s.data.map (unicodeToLower tbl)⟩

/-- Whether the rune list `s` starts with `sub`. -/
def startsWith : List Char → List Char → Bool
  | _, [] => true
  | [], _ :: _ => false
  | c :: cs, d :: ds => decide (c = d) && startsWith cs ds

/-- Whether `sub` occurs in `s` at some position. -/
def containsAt : List Char → List Char → Bool
  | [], sub => startsWith [] sub
  | c :: cs, sub => startsWith (c :: cs) sub || containsAt cs sub

/-- Go `strings.Contains(s, substr)`. -/
def stringsContains (s substr : String) : Bool := containsAt s.data substr.data

/-- Call of `(*sql.DB).Close` through a possibly nil pointer: the method locks a field
of its receiver first, so a nil receiver is a nil pointer dereference (`none`). -/
def sqlDBClose {σ : Type} (env : Env σ) (w : σ) : Option Conn → Option (Option GoError × σ)
  | none => none
  | some c => some (env.dbClose w c)

/-! ## `mock/mock.go` -/

/-- Go `const dbtype`. -/
def dbtype : String := "sqlite"

structure MockClient where
  dbpath : String
  NameIDMap : GoMap String
  ConnMap : GoMap Conn
deriving DecidableEq, Repr

/-- What a method of `*MockClient` leaves behind: the world, the receiver, the result. -/
structure Step (σ α : Type) where
  world : σ
  client : MockClient
  out : Outcome α

/-- The table-count statement of `GetDB`. -/
def countTablesSQL : String :=
  "SELECT count(*) FROM sqlite_master WHERE type = \x27table\x27 AND name != \x27android_metadata\x27 AND name != \x27sqlite_sequence\x27;"

/-- The message of the runtime panic on a nil pointer dereference. -/
def nilDereference : String :=
  "runtime error: invalid memory address or nil pointer dereference"

namespace MockClient

variable {σ : Type}

/-- The loop of `Close`: close each connection in turn, stop at the first error. -/
def closeEach (env : Env σ) : σ → List (String × Conn) → Option GoError × σ
  | w, [] => (none, w)
  | w, (_, conn) :: rest =>
    let r := env.dbClose w conn
    match r.1 with
    | some e => (some e, r.2)
    | none => closeEach env r.2 rest

/-- Source: `(*MockClient).Close`. -/
def Close (env : Env σ) (w : σ) (m : MockClient) : Option GoError × σ :=
  let order := env.rangeConnMap w m.ConnMap
  closeEach env order.2 order.1

/-- Source: `(*MockClient).getDBPath`. -/
def getDBPath (env : Env σ) (m : MockClient) (id : String) : String :=
  env.filepathJoin m.dbpath (id ++ ".db")

/-- Source: `(*MockClient).CreateDB`. -/
def CreateDB (env : Env σ) (w : σ) (m : MockClient) (name : String) :
    Step σ (APIResponse D1Database) :=
  let u := env.uuidNew w
  let uid := u.1
  let path := getDBPath env m (env.uuidString uid)
  let o := env.sqlOpen u.2 dbtype path
  match o.1 with
  | .error e => ⟨o.2, m, .returned none (some e)⟩
  | .ok db =>
    let t := env.timeNow o.2
    let database : D1Database :=
      { CreatedAt := t.1
        FileSize := 0
        Name := name
        NumTables := 0
        ReadReplication := { Mode := ReadReplicationModeDisabled }
        UUID := uid
        Version := "1.0.0" }
    let m1 : MockClient := { m with NameIDMap := m.NameIDMap.set name (env.uuidString uid) }
    let m2 : MockClient := { m1 with ConnMap := m1.ConnMap.set (env.uuidString uid) db }
    ⟨t.2, m2, .returned
      (some { Result := database, Success := true, Messages := .null, Errors := .null }) none⟩

/-- Source: `(*MockClient).DeleteDB`.  The deferred `conn.Close()` runs when the function
returns normally; `conn` is nil when `dbID` was not a key of `ConnMap`. -/
def DeleteDB (env : Env σ) (w : σ) (m : MockClient) (dbID : String) :
    Step σ (APIResponse DeleteResult) :=
  let conn := m.ConnMap.get dbID
  let m1 : MockClient :=
    match conn with
    | some _ => { m with ConnMap := m.ConnMap.delete dbID }
    | none => m
  let r := env.osRemove w (getDBPath env m dbID)
  match r.1 with
  | some (OsError.mk text false) => ⟨r.2, m1, .returned none (some text)⟩
  | _ =>
    match sqlDBClose env r.2 conn with
    | none => ⟨r.2, m1, .panicked nilDereference⟩
    | some c =>
      ⟨c.2, m1, .returned
        (some { Result := {}, Success := true, Messages := .null, Errors := .null }) none⟩

/-- Source: `(*MockClient).UpdateDB`. -/
def UpdateDB (_env : Env σ) (w : σ) (m : MockClient) (_dbID : String) (_settings : DBSettings) :
    Step σ (APIResponse D1Database) :=
  ⟨w, m, .returned
    (some
      { Result := D1Database.zero
        Success := false
        Messages := .null
        Errors := .elems
          [{ Code := 1000, Message := "There is no concept of replication modes in local sqlite" }] })
    none⟩

/-- The name loop of `GetDB`: the first visited entry whose id is `dbID`, else `""`. -/
def lookupName (dbID : String) : List (String × String) → String
  | [] => ""
  | (name, id) :: rest => if id = dbID then name else lookupName dbID rest

/-- The scan loop of `GetDB`: `for rows.Next() { err = rows.Scan(&count) ... }`. -/
def scanCount : List Cursor → Int → Except GoError Int
  | [], count => .ok count
  | c :: rest, _ =>
    match c.scanInt with
    | .error e => .error e
    | .ok n => scanCount rest n

/-- Source: `(*MockClient).GetDB`. -/
def GetDB (env : Env σ) (w : σ) (m : MockClient) (dbID : String) :
    Step σ (APIResponse D1Database) :=
  match m.ConnMap.get dbID with
  | none => ⟨w, m, .returned none (some ("Invalid db id: " ++ dbID))⟩
  | some db =>
    let st := env.osStat w (getDBPath env m dbID)
    let dbTime : String := match st.1 with
      | .ok fi => fi.ModTime
      | .error _ => ""
    let dbSize : Int := match st.1 with
      | .ok fi => fi.Size
      | .error _ => 0
    match env.uuidParse dbID with
    | .error e => ⟨st.2, m, .returned none (some e)⟩
    | .ok uid =>
      let order := env.rangeNameIDMap st.2 m.NameIDMap
      let dbname := lookupName dbID order.1
      let q := env.dbQuery order.2 db countTablesSQL []
      match q.1 with
      | .error e => ⟨q.2, m, .returned none (some e)⟩
      | .ok rows =>
        match scanCount rows.cursor 0 with
        | .error e => ⟨env.rowsClose q.2 rows, m, .returned none (some e)⟩
        | .ok count =>
          let database : D1Database :=
            { CreatedAt := dbTime
              FileSize := dbSize
              Name := dbname
              NumTables := count
              ReadReplication := { Mode := ReadReplicationModeDisabled }
              UUID := uid
              Version := "1.0.0" }
          ⟨env.rowsClose q.2 rows, m, .returned
            (some { Result := database, Success := true, Messages := .null, Errors := .null })
            none⟩

/-- The loop of `ListDB` over the visited ids: a `GetDB` that returns an error is
skipped; `.error` is a panic (of `GetDB`, or of `res.Result` on a nil `res`). -/
def listEach (env : Env σ) (m : MockClient) :
    σ → List (String × String) → Slice D1Database → Except String (Slice D1Database) × σ
  | w, [], l => (.ok l, w)
  | w, (_, id) :: rest, l =>
    let g := GetDB env w m id
    match g.out with
    | .returned _ (some _) => listEach env m g.world rest l
    | .returned (some res) none => listEach env m g.world rest (l.append res.Result)
    | .returned none none => (.error nilDereference, g.world)
    | .panicked msg => (.error msg, g.world)

/-- Source: `(*MockClient).ListDB`. -/
def ListDB (env : Env σ) (w : σ) (m : MockClient) : Step σ (APIResponse (Slice D1Database)) :=
  let order := env.rangeNameIDMap w m.NameIDMap
  let r := listEach env m order.2 order.1 (.elems [])
  match r.1 with
  | .error msg => ⟨r.2, m, .panicked msg⟩
  | .ok l =>
    ⟨r.2, m, .returned
      (some { Result := l, Success := true, Messages := .null, Errors := .null }) none⟩

/-- The conversion of one scanned value in `query`: `[]byte` becomes `string(b)`. -/
def coerce : Value → Value
  | .bytes b => .text b
  | v => v

/-- The column loop of `query`: `row[col] = ...values[i]...` for `i, col := range columns`,
from index `i` on. -/
def fillRow (values : List Value) : List String → Nat → Row → Row
  | [], _, row => row
  | col :: rest, i, row => fillRow values rest (i + 1) (row.set col (coerce (values.getD i .null)))

/-- The row loop of `query`: `for rows.Next() { ... results = append(results, row) }`. -/
def scanRows (columns : List String) : List Cursor → Slice Row → Except GoError (Slice Row)
  | [], results => .ok results
  | c :: rest, results =>
    match c.scanAny with
    | .error e => .error e
    | .ok values => scanRows columns rest (results.append (fillRow values columns 0 []))

/-- Source: `(*MockClient).query`. -/
def query (env : Env σ) (w : σ) (m : MockClient) (dbID : String) (query : String)
    (params : List Value) : Step σ (APIResponse (Slice QueryResult)) :=
  match m.ConnMap.get dbID with
  | none => ⟨w, m, .returned none (some ("Invalid db id: " ++ dbID))⟩
  | some db =>
    let q := env.dbQuery w db query params
    match q.1 with
    | .error e =>
      ⟨q.2, m, .returned
        (some
          { Result := .elems []
            Success := false
            Messages := .null
            Errors := .elems [{ Code := 1000, Message := e }] })
        none⟩
    | .ok rows =>
      match rows.Columns with
      | .error e => ⟨env.rowsClose q.2 rows, m, .returned none (some e)⟩
      | .ok columns =>
        match scanRows columns rows.cursor .null with
        | .error e => ⟨env.rowsClose q.2 rows, m, .returned none (some e)⟩
        | .ok results =>
          let meta : Meta :=
            { ChangedDB := false
              Changes := 0
              Duration := ⟨1, -1⟩
              LastRowID := 0
              RowsRead := results.len
              RowsWritten := 0
              ServedByPrimary := true
              ServedByRegion := "mock-region"
              SizeAfter := 1024
              Timings := some { SQLDurationMS := ⟨1, -1⟩ } }
          let queryResult : QueryResult :=
            { Meta := meta, Results := .rows results, Success := true }
          ⟨env.rowsClose q.2 rows, m, .returned
            (some
              { Result := .elems [queryResult]
                Success := true
                Messages := .null
                Errors := .null })
            none⟩

/-- Source: `(*MockClient).exec`. -/
def exec (env : Env σ) (w : σ) (m : MockClient) (dbID : String) (query : String)
    (params : List Value) : Step σ (APIResponse (Slice QueryResult)) :=
  match m.ConnMap.get dbID with
  | none => ⟨w, m, .returned none (some ("Invalid db id: " ++ dbID))⟩
  | some db =>
    let x := env.dbExec w db query params
    match x.1 with
    | .error e =>
      ⟨x.2, m, .returned
        (some
          { Result := .elems []
            Success := false
            Messages := .null
            Errors := .elems [{ Code := 1000, Message := e }] })
        none⟩
    | .ok result =>
      match result.LastInsertId with
      | .panic msg => ⟨x.2, m, .panicked msg⟩
      | .error e => ⟨x.2, m, .returned none (some e)⟩
      | .ok last =>
        match result.RowsAffected with
        | .panic msg => ⟨x.2, m, .panicked msg⟩
        | .error e => ⟨x.2, m, .returned none (some e)⟩
        | .ok affected =>
          let meta : Meta :=
            { ChangedDB := false
              Changes := 0
              Duration := ⟨1, -1⟩
              LastRowID := last
              RowsRead := affected
              RowsWritten := affected
              ServedByPrimary := true
              ServedByRegion := "mock-region"
              SizeAfter := 1024
              Timings := some { SQLDurationMS := ⟨1, -1⟩ } }
          let queryResult : QueryResult :=
            { Meta := meta, Results := .nilInterface, Success := true }
          ⟨x.2, m, .returned
            (some
              { Result := .elems [queryResult]
                Success := true
                Messages := .null
                Errors := .null })
            none⟩

/-- Source: `(*MockClient).QueryDB`. -/
def QueryDB (env : Env σ) (w : σ) (m : MockClient) (dbID : String) (q : String)
    (params : List Value) : Step σ (APIResponse (Slice QueryResult)) :=
  if stringsContains (stringsToLower env.lowerTable q) "select" then
    query env w m dbID q params
  else
    exec env w m dbID q params

/-- Source: `(*MockClient).QueryDBRaw`. -/
def QueryDBRaw (env : Env σ) (w : σ) (m : MockClient) (dbID : String) (q : String)
    (params : List Value) : Step σ (APIResponse (Slice QueryResult)) :=
  QueryDB env w m dbID q params

end MockClient

/-! ## A caller, and a small concrete environment for evaluating the operations -/

/-- The one `db.Query` call that `GetDB(dbID)` makes on the connection `db` when it is
called in world `w`: the table-count statement, issued in the world that `os.Stat` and the
range over `NameIDMap` leave behind. -/
def MockClient.tableCountQuery {σ : Type} (env : Env σ) (w : σ) (m : MockClient)
    (dbID : String) (db : Conn) : Except GoError Rows × σ :=
  env.dbQuery
    (env.rangeNameIDMap (env.osStat w (MockClient.getDBPath env m dbID)).2 m.NameIDMap).2
    db countTablesSQL []

/-- World of the demonstration environment: a counter for identifiers and handles,
and the storage files present. -/
structure DemoWorld where
  counter : Nat
  files : List String
deriving DecidableEq, Repr

/-- The rows the demonstration engine returns for `SELECT * FROM test_table`. -/
def demoRows : Rows :=
  { Columns := .ok ["id", "name"]
    cursor :=
      [ { scanAny := .ok [.int 1, .bytes [97, 108, 105, 99, 101]]
          scanInt := .error "sql: expected 2 destination arguments in Scan, not 1" },
        { scanAny := .ok [.int 2, .text [98, 111, 98]]
          scanInt := .error "sql: expected 2 destination arguments in Scan, not 1" } ] }

/-- A demonstration environment.  Identifiers are minted from a counter and written in
unary; `sql.Open` creates the storage file; the engine knows three statements and rejects
every other one; `range` visits a map in reverse order of the association list. -/
def demoEnv : Env DemoWorld where
  uuidNew w := (⟨w.counter + 1⟩, { w with counter := w.counter + 1 })
  uuidString u := ⟨List.replicate u.val (Char.ofNat 117)⟩
  uuidParse s :=
    if s.data = List.replicate s.data.length (Char.ofNat 117) then .ok ⟨s.data.length⟩
    else .error "invalid UUID format"
  filepathJoin a b := a ++ "/" ++ b
  filepathAbs w p := (.ok p, w)
  sqlOpen w _ path := (.ok ⟨w.counter⟩, { w with files := path :: w.files })
  dbClose w _ := (none, w)
  dbQuery w _ q _ :=
    if q = countTablesSQL then
      (.ok { Columns := .ok ["count(*)"], cursor := [{ scanAny := .ok [.int 0], scanInt := .ok 0 }] }, w)
    else if q = "SELECT * FROM test_table" then (.ok demoRows, w)
    else (.error "SQL logic error: no such table", w)
  rowsClose w _ := w
  dbExec w _ q _ :=
    if q = "DELETE FROM test_table" then (.ok { LastInsertId := .ok 2, RowsAffected := .ok 2 }, w)
    else (.error "SQL logic error: no such column", w)
  osRemove w path :=
    if path ∈ w.files then (none, { w with files := w.files.filter (fun f => decide (f ≠ path)) })
    else (some { text := "remove: no such file or directory", notExist := true }, w)
  osStat w path :=
    if path ∈ w.files then (.ok { ModTime := "2024-01-01T00:00:00Z", Size := 0 }, w)
    else (.error "stat: no such file or directory", w)
  timeNow w := ("2024-01-01T00:00:00Z", w)
  rangeNameIDMap w l := (l.reverse, w)
  rangeConnMap w l := (l.reverse, w)
  lowerTable c := c

/-- Initial world of the demonstration. -/
def demoWorld : DemoWorld := { counter := 0, files := [] }

/-- A fresh emulator rooted at `/tmp/d1`. -/
def demoClient : MockClient := { dbpath := "/tmp/d1", NameIDMap := [], ConnMap := [] }

/-- The demonstration emulator after `CreateDB("t1")`; the database has id `"u"`. -/
def demoCreated : Step DemoWorld (APIResponse D1Database) :=
  MockClient.CreateDB demoEnv demoWorld demoClient "t1"

/-- The demonstration emulator after `CreateDB("t1")` and then `DeleteDB("u")`. -/
def demoDeleted : Step DemoWorld (APIResponse DeleteResult) :=
  MockClient.DeleteDB demoEnv demoCreated.world demoCreated.client "u"

/-- The envelope `query` and `exec` build when the engine rejects a statement with
error text `e`. -/
def rejectedEnvelope (e : GoError) : APIResponse (Slice QueryResult) :=
  { Result := .elems []
    Success := false
    Messages := .null
    Errors := .elems [{ Code := 1000, Message := e }] }

/-- The row records held by a results payload; the nil interface holds none. -/
def Results.toList : Results → List Row
  | nilInterface => []
  | rows s => s.toList

/-- Go `json.Marshal` on a results payload without elements: the nil interface and the
nil slice encode as `null`, an empty non-nil slice as `[]`.  A payload with elements is
left out (`none`). -/
def jsonEmptyResults : Results → Option String
  | .nilInterface => some "null"
  | .rows .null => some "null"
  | .rows (.elems []) => some "[]"
  | .rows (.elems (_ :: _)) => none

/-- The demonstration environment with another engine: `test_table` is empty, and
`SELECT 1 AS a, 2 AS a` returns one row under two columns of the same name. -/
def demoEnvB : Env DemoWorld :=
  { demoEnv with
    dbQuery := fun w _ q _ =>
      if q = countTablesSQL then
        (.ok { Columns := .ok ["count(*)"],
               cursor := [{ scanAny := .ok [.int 1], scanInt := .ok 1 }] }, w)
      else if q = "SELECT * FROM test_table" then
        (.ok { Columns := .ok ["id", "name", "verified"], cursor := [] }, w)
      else if q = "SELECT 1 AS a, 2 AS a" then
        (.ok { Columns := .ok ["a", "a"],
               cursor := [{ scanAny := .ok [.int 1, .int 2],
                            scanInt := .error "sql: expected 2 destination arguments in Scan, not 1" }] },
          w)
      else (.error "SQL logic error: no such table", w) }

/-- The demonstration environment with an engine that fails in the middle of a cursor:
`SELECT abs(x) FROM t` yields one row and then ends on an integer overflow, which the
engine reports through `rows.Err()`. -/
def demoEnvC : Env DemoWorld :=
  { demoEnv with
    dbQuery := fun w c q params =>
      if q = "SELECT abs(x) FROM t" then
        (.ok { Columns := .ok ["abs(x)"],
               cursor := [{ scanAny := .ok [.int 1],
                            scanInt := .ok 1 }],
               Err := some "integer overflow" }, w)
      else demoEnv.dbQuery w c q params }

/-- The envelope invariant of the specification, for a payload type whose empty or default
values are those satisfying `isDefault`: success implies an empty errors sequence; failure
implies a non-empty errors sequence and an empty or default payload. -/
def EnvelopeInvariant {T : Type} (isDefault : T → Prop) (resp : APIResponse T) : Prop :=
  (resp.Success = true → resp.Errors.len = 0) ∧
  (resp.Success = false → resp.Errors.len ≠ 0 ∧ isDefault resp.Result)

/-- An environment that records closes: the world is the list of the handles closed so
far, most recent first.  Closing handle 1 fails; every other close succeeds.  `range`
visits a map in the order of the association list. -/
def trackEnv : Env (List Nat) where
  uuidNew w := (⟨w.length + 1⟩, w)
  uuidString := demoEnv.uuidString
  uuidParse := demoEnv.uuidParse
  filepathJoin := demoEnv.filepathJoin
  filepathAbs w p := (.ok p, w)
  sqlOpen w _ _ := (.ok ⟨w.length + 1⟩, w)
  dbClose w c :=
    if c.handle = 1 then (some "sqlite: close failed", w) else (none, c.handle :: w)
  dbQuery w _ _ _ := (.error "SQL logic error", w)
  rowsClose w _ := w
  dbExec w _ _ _ := (.error "SQL logic error", w)
  osRemove w _ := (none, w)
  osStat w _ := (.error "stat: no such file or directory", w)
  timeNow w := ("2024-01-01T00:00:00Z", w)
  rangeNameIDMap w l := (l, w)
  rangeConnMap w l := (l, w)
  lowerTable c := c

/-- A session that owns three connections, with handles 3, 1 and 2. -/
def threeConnections : MockClient :=
  { dbpath := "/tmp/d1"
    NameIDMap := [("a", "uuu"), ("b", "u"), ("c", "uu")]
    ConnMap := [("uuu", ⟨3⟩), ("u", ⟨1⟩), ("uu", ⟨2⟩)] }

/-! ## `cloudflared1.go`: the replication mode on the wire -/

/-- JSON text, the `[]byte` that `json.Marshal` returns and `json.Unmarshal` reads. -/
abbrev JSONData := String

/-- The part of package encoding/json that the replication mode uses: `json.Marshal` of a
string, and `json.Unmarshal` of data into a string variable. -/
structure JSONCodec where
  marshalString : String → Except GoError JSONData
  unmarshalString : JSONData → Except GoError String

/-- A codec for the demonstrations: a string is written between double quotes; the two
mode names and `null` are read back, any other data is refused. -/
def demoCodec : JSONCodec where
  marshalString s := .ok ("\x22" ++ s ++ "\x22")
  unmarshalString d :=
    if d = "\x22auto\x22" then .ok "auto"
    else if d = "\x22disabled\x22" then .ok "disabled"
    else if d = "\x22AUTO\x22" then .ok "AUTO"
    else if d = "null" then .ok ""
    else .error "json: cannot unmarshal into Go value of type string"

/-- Source: `ReadReplicationMode.String`. -/
def ReadReplicationMode.String (r : ReadReplicationMode) : String :=
  if r = ReadReplicationModeAuto then "auto" else "disabled"

/-- Source: `ReadReplicationMode.MarshalJSON`. -/
def ReadReplicationMode.MarshalJSON (codec : JSONCodec) (r : ReadReplicationMode) :
    Except GoError JSONData :=
  codec.marshalString (ReadReplicationMode.String r)

/-- Source: `(*ReadReplicationMode).UnmarshalJSON`: the new value of the receiver (unchanged
when the data is refused) and the error. -/
def ReadReplicationMode.UnmarshalJSON (codec : JSONCodec) (r : ReadReplicationMode)
    (data : JSONData) : ReadReplicationMode × Option GoError :=
  match codec.unmarshalString data with
  | .error e => (r, some e)
  | .ok str =>
    if str = "auto" then (ReadReplicationModeAuto, none)
    else (ReadReplicationModeDisabled, none)

/-! ## Statement classification -/

theorem startsWith_iff (sub s : List Char) :
    startsWith s sub = true ↔ ∃ post, s = sub ++ post := by
  induction sub generalizing s with
  | nil => simp [startsWith]
  | cons d ds ih =>
    cases s with
    | nil => simp [startsWith]
    | cons c cs =>
      simp only [startsWith, Bool.and_eq_true, decide_eq_true_eq, ih, List.cons_append,
        List.cons.injEq]
      constructor
      · rintro ⟨rfl, post, rfl⟩
        exact ⟨post, rfl, rfl⟩
      · rintro ⟨post, rfl, rfl⟩
        exact ⟨rfl, post, rfl⟩

theorem containsAt_iff (sub s : List Char) :
    containsAt s sub = true ↔ ∃ pre post, s = pre ++ sub ++ post := by
  induction s with
  | nil =>
    simp only [containsAt, startsWith_iff]
    constructor
    · rintro ⟨post, h⟩
      exact ⟨[], post, by simpa using h⟩
    · rintro ⟨pre, post, h⟩
      have h1 : pre = [] ∧ sub = [] ∧ post = [] := by simpa [eq_comm] using h
      exact ⟨[], by simp [h1.2.1]⟩
  | cons c cs ih =>
    simp only [containsAt, Bool.or_eq_true, startsWith_iff, ih]
    constructor
    · rintro (⟨post, h⟩ | ⟨pre, post, h⟩)
      · exact ⟨[], post, by simpa using h⟩
      · exact ⟨c :: pre, post, by simp [h]⟩
    · rintro ⟨pre, post, h⟩
      cases pre with
      | nil => exact Or.inl ⟨post, by simpa using h⟩
      | cons p ps =>
        simp only [List.cons_append, List.cons.injEq] at h
        exact Or.inr ⟨ps, post, h.2⟩

theorem contains_select_iff {σ : Type} (env : Env σ) (q : String) :
    stringsContains (stringsToLower env.lowerTable q) "select" = true ↔
      ∃ pre mid post, q.data = pre ++ mid ++ post ∧
        mid.map (unicodeToLower env.lowerTable) = "select".data := by
  unfold stringsContains stringsToLower
  rw [containsAt_iff]
  constructor
  · rintro ⟨pre, post, h⟩
    simp only [List.map_eq_append_iff] at h
    obtain ⟨l1, l2, h1, h2, -⟩ := h
    obtain ⟨l3, l4, h4, -, h6⟩ := h2
    exact ⟨l3, l4, l2, by rw [h1, h4], h6⟩
  · rintro ⟨pre, mid, post, h1, h2⟩
    exact ⟨pre.map (unicodeToLower env.lowerTable), post.map (unicodeToLower env.lowerTable),
      by simp [h1, h2]⟩

/-- C1: `QueryDB` takes the read path (`query`) exactly when the SQL text has a stretch of
runes that lower-cases to "select", and the write path (`exec`) otherwise; so a write with
a sub-select, a write on a table named "selected", and "SeLeCt 1" all take the read path. -/
theorem QueryDB_read_path_iff_contains_select {σ : Type} (env : Env σ) (w : σ)
    (m : MockClient) (dbID q : String) (params : List Value) :
    ((∃ pre mid post, q.data = pre ++ mid ++ post ∧
          mid.map (unicodeToLower env.lowerTable) = "select".data) →
        MockClient.QueryDB env w m dbID q params = MockClient.query env w m dbID q params) ∧
    ((¬ ∃ pre mid post, q.data = pre ++ mid ++ post ∧
          mid.map (unicodeToLower env.lowerTable) = "select".data) →
        MockClient.QueryDB env w m dbID q params = MockClient.exec env w m dbID q params) ∧
    MockClient.QueryDB env w m dbID "INSERT INTO t SELECT a FROM u" params =
      MockClient.query env w m dbID "INSERT INTO t SELECT a FROM u" params ∧
    MockClient.QueryDB env w m dbID "UPDATE selected SET a = 1" params =
      MockClient.query env w m dbID "UPDATE selected SET a = 1" params ∧
    MockClient.QueryDB env w m dbID "SeLeCt 1" params =
      MockClient.query env w m dbID "SeLeCt 1" params ∧
    MockClient.QueryDB env w m dbID "DROP TABLE t" params =
      MockClient.exec env w m dbID "DROP TABLE t" params := by
  refine ⟨?_, ?_, ?_, ?_, ?_, ?_⟩
  · intro h
    simp [MockClient.QueryDB, (contains_select_iff env q).2 h]
  · intro h
    have h1 : ¬ stringsContains (stringsToLower env.lowerTable q) "select" = true :=
      fun hc => h ((contains_select_iff env q).1 hc)
    simp [MockClient.QueryDB, h1]
  · have h1 : stringsContains (stringsToLower env.lowerTable
        "INSERT INTO t SELECT a FROM u") "select" = true := rfl
    simp [MockClient.QueryDB, h1]
  · have h1 : stringsContains (stringsToLower env.lowerTable
        "UPDATE selected SET a = 1") "select" = true := rfl
    simp [MockClient.QueryDB, h1]
  · have h1 : stringsContains (stringsToLower env.lowerTable "SeLeCt 1") "select" = true := rfl
    simp [MockClient.QueryDB, h1]
  · have h1 : stringsContains (stringsToLower env.lowerTable "DROP TABLE t") "select" = false :=
      rfl
    simp [MockClient.QueryDB, h1]

/-- C1, at concrete inputs: in the demonstration emulator "SeLeCt 1" goes to `query`, which
the engine rejects as a read, and "DELETE FROM test_table" goes to `exec`. -/
theorem QueryDB_read_path_witness :
    MockClient.QueryDB demoEnv demoCreated.world demoCreated.client "u" "SeLeCt 1" [] =
      MockClient.query demoEnv demoCreated.world demoCreated.client "u" "SeLeCt 1" [] ∧
    MockClient.QueryDB demoEnv demoCreated.world demoCreated.client "u"
        "DELETE FROM test_table" [] =
      MockClient.exec demoEnv demoCreated.world demoCreated.client "u"
        "DELETE FROM test_table" [] :=
  ⟨(QueryDB_read_path_iff_contains_select demoEnv demoCreated.world demoCreated.client "u"
      "SeLeCt 1" []).1 ⟨[], "SeLeCt".data, " 1".data, rfl, rfl⟩,
   (QueryDB_read_path_iff_contains_select demoEnv demoCreated.world demoCreated.client "u"
      "DELETE FROM test_table" []).2.1
      (fun h => Bool.noConfusion
        ((contains_select_iff demoEnv "DELETE FROM test_table").2 h :
          stringsContains (stringsToLower demoEnv.lowerTable "DELETE FROM test_table")
            "select" = true))⟩

/-! ## Maps -/

theorem GoMap.get_delete_self {ν : Type} (m : GoMap ν) (k : String) :
    GoMap.get (GoMap.delete m k) k = none := by
  induction m with
  | nil => rfl
  | cons e rest ih =>
    obtain ⟨k1, v⟩ := e
    by_cases h : k1 = k
    · simpa [GoMap.delete, List.filter_cons, h] using ih
    · simpa [GoMap.delete, List.filter_cons, h, GoMap.get] using ih

theorem DeleteDB_client {σ : Type} (env : Env σ) (w : σ) (m : MockClient) (dbID : String) :
    (MockClient.DeleteDB env w m dbID).client =
      match m.ConnMap.get dbID with
      | some _ => { m with ConnMap := m.ConnMap.delete dbID }
      | none => m := by
  unfold MockClient.DeleteDB
  simp only
  split <;> try rfl
  split <;> rfl

theorem DeleteDB_ConnMap_get {σ : Type} (env : Env σ) (w : σ) (m : MockClient)
    (dbID : String) : (MockClient.DeleteDB env w m dbID).client.ConnMap.get dbID = none := by
  rw [DeleteDB_client]
  cases h : m.ConnMap.get dbID with
  | none => simpa using h
  | some c => simpa using GoMap.get_delete_self m.ConnMap dbID

theorem DeleteDB_NameIDMap {σ : Type} (env : Env σ) (w : σ) (m : MockClient)
    (dbID : String) : (MockClient.DeleteDB env w m dbID).client.NameIDMap = m.NameIDMap := by
  rw [DeleteDB_client]
  cases m.ConnMap.get dbID <;> rfl

/-! ## Statement failures, deletion, update -/

/-- Rejection at the call: for a known database id and a statement for which the call that
`QueryDB` makes (`db.Query` for a read, `db.Exec` for a write) itself returns the error `e`,
`QueryDB` returns no error and an envelope with `Success = false`, the single error
`{1000, e}` and a non-nil `Result` of length 0. -/
theorem QueryDB_engine_rejection {σ : Type} (env : Env σ) (w : σ) (m : MockClient)
    (dbID q : String) (params : List Value) (db : Conn) (e : GoError)
    (hid : m.ConnMap.get dbID = some db)
    (hrej : if stringsContains (stringsToLower env.lowerTable q) "select" = true
      then (env.dbQuery w db q params).1 = .error e
      else (env.dbExec w db q params).1 = .error e) :
    ∃ resp, (MockClient.QueryDB env w m dbID q params).out = .returned (some resp) none ∧
      resp.Success = false ∧
      resp.Errors = .elems [{ Code := 1000, Message := e }] ∧
      resp.Errors.len = 1 ∧
      resp.Result = .elems [] ∧
      resp.Result.len = 0 := by
  refine ⟨rejectedEnvelope e, ?_, rfl, rfl, rfl, rfl, rfl⟩
  unfold MockClient.QueryDB
  by_cases hc : stringsContains (stringsToLower env.lowerTable q) "select" = true
  · rw [if_pos hc] at hrej
    rw [if_pos hc]
    simp [MockClient.query, hid, hrej, rejectedEnvelope]
  · rw [if_neg hc] at hrej
    rw [if_neg hc]
    simp [MockClient.exec, hid, hrej, rejectedEnvelope]

/-- Rejection at the call, at concrete inputs: the malformed insert of the test on the write
path, and a read of a missing table on the read path. -/
theorem QueryDB_engine_rejection_witness :
    (∃ resp, (MockClient.QueryDB demoEnv demoCreated.world demoCreated.client "u"
          "INSERT INTO test_table (foo, bar, baz) VALUES (1, 2, 3)" []).out =
        .returned (some resp) none ∧
      resp.Success = false ∧
      resp.Errors = .elems [{ Code := 1000, Message := "SQL logic error: no such column" }] ∧
      resp.Errors.len = 1 ∧
      resp.Result = .elems [] ∧
      resp.Result.len = 0) ∧
    (∃ resp, (MockClient.QueryDB demoEnv demoCreated.world demoCreated.client "u"
          "SELECT * FROM missing" []).out = .returned (some resp) none ∧
      resp.Success = false ∧
      resp.Errors = .elems [{ Code := 1000, Message := "SQL logic error: no such table" }] ∧
      resp.Errors.len = 1 ∧
      resp.Result = .elems [] ∧
      resp.Result.len = 0) :=
  ⟨QueryDB_engine_rejection demoEnv demoCreated.world demoCreated.client "u"
      "INSERT INTO test_table (foo, bar, baz) VALUES (1, 2, 3)" [] ⟨1⟩
      "SQL logic error: no such column" (by decide) (by rw [if_neg (by decide)]; rfl),
   QueryDB_engine_rejection demoEnv demoCreated.world demoCreated.client "u"
      "SELECT * FROM missing" [] ⟨1⟩
      "SQL logic error: no such table" (by decide) (by rw [if_pos (by decide)]; rfl)⟩

/-- C3: after `DeleteDB(id)`, whatever its outcome, `GetDB(id)` and `QueryDB(id, q, params)`
for every statement `q`, in every later world, return the error "Invalid db id: id" and no
envelope; in particular no envelope with `Success = false`. -/
theorem after_DeleteDB_id_is_unknown {σ : Type} (env : Env σ) (w : σ) (m : MockClient)
    (dbID : String) :
    (∀ w2 : σ, (MockClient.GetDB env w2 (MockClient.DeleteDB env w m dbID).client dbID).out =
        .returned none (some ("Invalid db id: " ++ dbID))) ∧
    (∀ (w2 : σ) (q : String) (params : List Value),
      (MockClient.QueryDB env w2 (MockClient.DeleteDB env w m dbID).client dbID q params).out =
        .returned none (some ("Invalid db id: " ++ dbID))) := by
  have h := DeleteDB_ConnMap_get env w m dbID
  constructor
  · intro w2
    simp [MockClient.GetDB, h]
  · intro w2 q params
    unfold MockClient.QueryDB
    split
    · simp [MockClient.query, h]
    · simp [MockClient.exec, h]

/-- C4 (what the code does): when `dbID` is not a key of `ConnMap` and `os.Remove` succeeds
or reports that the file does not exist, `DeleteDB` does not return: the deferred
`conn.Close()` runs on a nil `*sql.DB` and panics. -/
theorem DeleteDB_absent_id_panics {σ : Type} (env : Env σ) (w : σ) (m : MockClient)
    (dbID : String) (hid : m.ConnMap.get dbID = none)
    (hrm : (env.osRemove w (MockClient.getDBPath env m dbID)).1 = none ∨
      ∃ text, (env.osRemove w (MockClient.getDBPath env m dbID)).1 = some ⟨text, true⟩) :
    (MockClient.DeleteDB env w m dbID).out = .panicked nilDereference := by
  unfold MockClient.DeleteDB
  rcases hrm with h | ⟨text, h⟩
  · simp [h, hid, sqlDBClose]
  · simp [h, hid, sqlDBClose]

/-- C4, at a concrete input: the first `DeleteDB("u")` returns a successful envelope, the
second call on the same id panics. -/
theorem DeleteDB_second_call_panics :
    demoDeleted.out =
      .returned (some { Result := {}, Success := true, Messages := .null, Errors := .null })
        none ∧
    (MockClient.DeleteDB demoEnv demoDeleted.world demoDeleted.client "u").out =
      .panicked nilDereference :=
  ⟨by decide,
   DeleteDB_absent_id_panics demoEnv demoDeleted.world demoDeleted.client "u" (by decide)
    (Or.inr ⟨"remove: no such file or directory", by decide⟩)⟩

/-- C5, as stated, fails: after `CreateDB("t1")` gave id "u" and `DeleteDB("u")` returned a
successful envelope, the name "t1" still maps to "u" in `NameIDMap`. -/
theorem DeleteDB_keeps_registry_entry :
    demoCreated.client.NameIDMap.get "t1" = some "u" ∧
    demoDeleted.out =
      .returned (some { Result := {}, Success := true, Messages := .null, Errors := .null })
        none ∧
    demoDeleted.client.NameIDMap.get "t1" = some "u" ∧
    ¬ (∀ name, demoDeleted.client.NameIDMap.get name ≠ some "u") := by
  refine ⟨by decide, by decide, by decide, fun h => h "t1" (by decide)⟩

/-- C5, amended: after a successful `DeleteDB(id)`, `id` is not a key of `ConnMap`, and
`NameIDMap` is what it was before the call. -/
theorem DeleteDB_success_state {σ : Type} (env : Env σ) (w : σ) (m : MockClient)
    (dbID : String) (resp : APIResponse DeleteResult)
    (_hok : (MockClient.DeleteDB env w m dbID).out = .returned (some resp) none) :
    (MockClient.DeleteDB env w m dbID).client.ConnMap.get dbID = none ∧
    (MockClient.DeleteDB env w m dbID).client.NameIDMap = m.NameIDMap :=
  ⟨DeleteDB_ConnMap_get env w m dbID, DeleteDB_NameIDMap env w m dbID⟩

/-- C5 amended, at a concrete input: the delete of the database created as "t1". -/
theorem DeleteDB_success_state_witness :
    demoDeleted.client.ConnMap.get "u" = none ∧
    demoDeleted.client.NameIDMap = demoCreated.client.NameIDMap :=
  DeleteDB_success_state demoEnv demoCreated.world demoCreated.client "u"
    { Result := {}, Success := true, Messages := .null, Errors := .null } (by decide)

/-- C6: for every id and settings, `UpdateDB` returns no error and an envelope with
`Success = false`, the zero `D1Database`, and exactly one error, with code 1000 and the fixed
message; the receiver (`NameIDMap`, `ConnMap`) and the world are unchanged. -/
theorem UpdateDB_always_fails {σ : Type} (env : Env σ) (w : σ) (m : MockClient)
    (dbID : String) (settings : DBSettings) :
    ∃ resp, (MockClient.UpdateDB env w m dbID settings).out = .returned (some resp) none ∧
      resp.Success = false ∧
      resp.Result = D1Database.zero ∧
      resp.Errors.toList =
        [{ Code := 1000, Message := "There is no concept of replication modes in local sqlite" }] ∧
      resp.Errors.len = 1 ∧
      (MockClient.UpdateDB env w m dbID settings).client.NameIDMap = m.NameIDMap ∧
      (MockClient.UpdateDB env w m dbID settings).client.ConnMap = m.ConnMap ∧
      (MockClient.UpdateDB env w m dbID settings).world = w :=
  ⟨_, rfl, rfl, rfl, rfl, rfl, rfl, rfl, rfl⟩

/-! ## Successful statements -/

theorem Slice.toList_append {α : Type} (s : Slice α) (x : α) :
    (s.append x).toList = s.toList ++ [x] := rfl

theorem scanRows_ok (columns : List String) (cursor : List Cursor) (vals : List (List Value))
    (acc : Slice Row) (hscan : cursor.map (fun c => c.scanAny) = vals.map .ok) :
    ∃ s, MockClient.scanRows columns cursor acc = .ok s ∧
      s.toList = acc.toList ++ vals.map (fun v => MockClient.fillRow v columns 0 []) := by
  induction cursor generalizing vals acc with
  | nil =>
    cases vals with
    | nil => exact ⟨acc, rfl, by simp⟩
    | cons v vs => simp at hscan
  | cons c rest ih =>
    cases vals with
    | nil => simp at hscan
    | cons v vs =>
      simp only [List.map_cons, List.cons.injEq] at hscan
      obtain ⟨s, hs, hl⟩ := ih vs (acc.append (MockClient.fillRow v columns 0 [])) hscan.2
      refine ⟨s, ?_, ?_⟩
      · simp [MockClient.scanRows, hscan.1, hs]
      · rw [hl, Slice.toList_append]
        simp

/-- C9: a read statement on a known id that the engine executes (`db.Query` and
`rows.Columns` succeed, and `rows.Scan` succeeds at each of the `k = vals.length` cursor
positions, giving `vals`) returns a successful envelope with exactly one query result,
whose `Success` is true, whose results are the `k` row records of `vals` in cursor order,
and whose metadata has `RowsRead = k`, `RowsWritten = 0`, `ChangedDB = false`. -/
theorem QueryDB_read_success {σ : Type} (env : Env σ) (w : σ) (m : MockClient)
    (dbID q : String) (params : List Value) (db : Conn) (rows : Rows)
    (columns : List String) (vals : List (List Value))
    (hread : stringsContains (stringsToLower env.lowerTable q) "select" = true)
    (hid : m.ConnMap.get dbID = some db)
    (hq : (env.dbQuery w db q params).1 = .ok rows)
    (hcols : rows.Columns = .ok columns)
    (hscan : rows.cursor.map (fun c => c.scanAny) = vals.map .ok) :
    ∃ resp qr recs, (MockClient.QueryDB env w m dbID q params).out = .returned (some resp) none ∧
      resp.Success = true ∧
      resp.Errors = .null ∧
      resp.Result = .elems [qr] ∧
      qr.Success = true ∧
      qr.Results = .rows recs ∧
      recs.toList = vals.map (fun v => MockClient.fillRow v columns 0 []) ∧
      qr.Results.len = rows.cursor.length ∧
      rows.cursor.length = vals.length ∧
      qr.Meta.RowsRead = vals.length ∧
      qr.Meta.RowsWritten = 0 ∧
      qr.Meta.ChangedDB = false := by
  obtain ⟨s, hs, hl⟩ := scanRows_ok columns rows.cursor vals .null hscan
  have hlen : rows.cursor.length = vals.length := by
    simpa using congrArg List.length hscan
  have hl2 : s.toList = vals.map (fun v => MockClient.fillRow v columns 0 []) := by
    rw [hl]
    rfl
  have hslen : s.len = vals.length := by
    unfold Slice.len
    rw [hl2, List.length_map]
  refine ⟨?resp, ?qr, s, ?out, ?_, ?_, ?res, ?_, ?_, hl2, ?_, hlen, ?_, ?_, ?_⟩
  case out =>
    simp only [MockClient.QueryDB, hread, if_true, MockClient.query, hid, hq, hcols, hs]
    exact rfl
  case res => exact rfl
  · rfl
  · rfl
  · rfl
  · rfl
  · show s.len = rows.cursor.length
    rw [hslen, hlen]
  · show ((s.len : Nat) : Int) = (vals.length : Int)
    rw [hslen]
  · rfl
  · rfl

/-- C9, at a concrete input: the select of the test, two rows in insertion order. -/
theorem QueryDB_read_success_witness :
    ∃ resp qr recs,
      (MockClient.QueryDB demoEnv demoCreated.world demoCreated.client "u"
        "SELECT * FROM test_table" []).out = .returned (some resp) none ∧
      resp.Success = true ∧
      resp.Errors = .null ∧
      resp.Result = .elems [qr] ∧
      qr.Success = true ∧
      qr.Results = .rows recs ∧
      recs.toList =
        [[.int 1, .bytes [97, 108, 105, 99, 101]], [.int 2, .text [98, 111, 98]]].map
          (fun v => MockClient.fillRow v ["id", "name"] 0 []) ∧
      qr.Results.len = demoRows.cursor.length ∧
      demoRows.cursor.length = 2 ∧
      qr.Meta.RowsRead = (2 : Nat) ∧
      qr.Meta.RowsWritten = 0 ∧
      qr.Meta.ChangedDB = false :=
  QueryDB_read_success demoEnv demoCreated.world demoCreated.client "u"
    "SELECT * FROM test_table" [] ⟨1⟩ demoRows ["id", "name"]
    [[.int 1, .bytes [97, 108, 105, 99, 101]], [.int 2, .text [98, 111, 98]]]
    (by decide) (by decide) rfl rfl rfl

/-- C10: a write statement on a known id that the engine executes with last-inserted-row
identifier `l` and affected-row count `a` returns a successful envelope with exactly one
query result, whose metadata has `RowsWritten = RowsRead = a` and `LastRowID = l`, and
whose results payload is nil. -/
theorem QueryDB_write_success {σ : Type} (env : Env σ) (w : σ) (m : MockClient)
    (dbID q : String) (params : List Value) (db : Conn) (result : Result) (l a : Int)
    (hwrite : stringsContains (stringsToLower env.lowerTable q) "select" = false)
    (hid : m.ConnMap.get dbID = some db)
    (hx : (env.dbExec w db q params).1 = .ok result)
    (hlast : result.LastInsertId = .ok l)
    (haff : result.RowsAffected = .ok a) :
    ∃ resp qr, (MockClient.QueryDB env w m dbID q params).out = .returned (some resp) none ∧
      resp.Success = true ∧
      resp.Errors = .null ∧
      resp.Result = .elems [qr] ∧
      qr.Success = true ∧
      qr.Meta.RowsWritten = a ∧
      qr.Meta.RowsRead = a ∧
      qr.Meta.LastRowID = l ∧
      qr.Results = .nilInterface ∧
      qr.Results.len = 0 := by
  refine ⟨?resp, ?qr, ?out, ?_, ?_, ?res, ?_, ?_, ?_, ?_, ?_, ?_⟩
  case out =>
    simp only [MockClient.QueryDB, hwrite, MockClient.exec, hid, hx, hlast, haff]
    exact rfl
  case res => exact rfl
  all_goals rfl

/-- C10, at a concrete input: the delete of the test, two rows affected. -/
theorem QueryDB_write_success_witness :
    ∃ resp qr,
      (MockClient.QueryDB demoEnv demoCreated.world demoCreated.client "u"
        "DELETE FROM test_table" []).out = .returned (some resp) none ∧
      resp.Success = true ∧
      resp.Errors = .null ∧
      resp.Result = .elems [qr] ∧
      qr.Success = true ∧
      qr.Meta.RowsWritten = 2 ∧
      qr.Meta.RowsRead = 2 ∧
      qr.Meta.LastRowID = 2 ∧
      qr.Results = .nilInterface ∧
      qr.Results.len = 0 :=
  QueryDB_write_success demoEnv demoCreated.world demoCreated.client "u"
    "DELETE FROM test_table" [] ⟨1⟩ { LastInsertId := .ok 2, RowsAffected := .ok 2 } 2 2
    (by decide) (by decide) rfl rfl rfl

/-! ## Create, get, list -/

theorem GoMap.get_set_self {ν : Type} (m : GoMap ν) (k : String) (v : ν) :
    GoMap.get (GoMap.set m k v) k = some v := by
  simp [GoMap.set, GoMap.get]

theorem GoMap.get_delete_ne {ν : Type} (m : GoMap ν) (k1 k : String) (h : k1 ≠ k) :
    GoMap.get (GoMap.delete m k1) k = GoMap.get m k := by
  induction m with
  | nil => rfl
  | cons e rest ih =>
    obtain ⟨k2, v⟩ := e
    by_cases h2 : k2 = k1
    · subst h2
      simpa [GoMap.delete, List.filter_cons, GoMap.get, h] using ih
    · by_cases h3 : k2 = k
      · subst h3
        simp [GoMap.delete, List.filter_cons, GoMap.get, h2]
      · simpa [GoMap.delete, List.filter_cons, GoMap.get, h2, h3] using ih

theorem GoMap.mem_of_mem_delete {ν : Type} (m : GoMap ν) (k : String) (e : String × ν)
    (h : e ∈ GoMap.delete m k) : e ∈ m :=
  (List.mem_filter.1 h).1

theorem lookupName_eq (dbID name : String) (l : List (String × String))
    (hex : ∃ e ∈ l, e.2 = dbID) (huniq : ∀ e ∈ l, e.2 = dbID → e.1 = name) :
    MockClient.lookupName dbID l = name := by
  induction l with
  | nil => simp at hex
  | cons e rest ih =>
    obtain ⟨n, id⟩ := e
    by_cases h : id = dbID
    · simpa [MockClient.lookupName, h] using huniq (n, id) (by simp) h
    · simp only [MockClient.lookupName, h, if_false]
      apply ih
      · obtain ⟨e, he, hid⟩ := hex
        rcases List.mem_cons.1 he with rfl | he2
        · exact absurd hid h
        · exact ⟨e, he2, hid⟩
      · intro e he
        exact huniq e (List.mem_cons_of_mem _ he)

/-- The conditions under which `GetDB` succeeds, and what it then returns. -/
theorem GetDB_ok {σ : Type} (env : Env σ) (w : σ) (m : MockClient) (dbID name : String)
    (db : Conn) (uid : UUID)
    (hrange : ∀ (w : σ) (l : GoMap String), (env.rangeNameIDMap w l).1.Perm l)
    (hcount : ∃ rows n, (MockClient.tableCountQuery env w m dbID db).1 = .ok rows ∧
      MockClient.scanCount rows.cursor 0 = .ok n)
    (hget : m.ConnMap.get dbID = some db)
    (hparse : env.uuidParse dbID = .ok uid)
    (hmem : (name, dbID) ∈ m.NameIDMap)
    (huniq : ∀ e ∈ m.NameIDMap, e.2 = dbID → e.1 = name) :
    ∃ got, (MockClient.GetDB env w m dbID).out = .returned (some got) none ∧
      got.Success = true ∧ got.Errors = .null ∧
      got.Result.Name = name ∧ got.Result.UUID = uid := by
  have hperm := hrange (env.osStat w (MockClient.getDBPath env m dbID)).2 m.NameIDMap
  have hname : MockClient.lookupName dbID
      (env.rangeNameIDMap (env.osStat w (MockClient.getDBPath env m dbID)).2 m.NameIDMap).1 =
        name := by
    apply lookupName_eq
    · exact ⟨(name, dbID), hperm.mem_iff.2 hmem, rfl⟩
    · intro e he
      exact huniq e (hperm.mem_iff.1 he)
  obtain ⟨rows, n, hq, hn⟩ := hcount
  unfold MockClient.tableCountQuery at hq
  refine ⟨?got, ?out, ?_, ?_, ?_, ?_⟩
  case out =>
    simp only [MockClient.GetDB, hget, hparse, hq, hn, hname]
    exact rfl
  all_goals rfl

theorem CreateDB_ok_inv {σ : Type} (env : Env σ) (w : σ) (m : MockClient) (name : String)
    (resp : APIResponse D1Database)
    (hcreate : (MockClient.CreateDB env w m name).out = .returned (some resp) none) :
    resp.Result.Name = name ∧ resp.Result.UUID = (env.uuidNew w).1 ∧
    (MockClient.CreateDB env w m name).client.NameIDMap =
      m.NameIDMap.set name (env.uuidString (env.uuidNew w).1) ∧
    ∃ db, (MockClient.CreateDB env w m name).client.ConnMap =
      m.ConnMap.set (env.uuidString (env.uuidNew w).1) db := by
  unfold MockClient.CreateDB at hcreate ⊢
  cases ho : (env.sqlOpen (env.uuidNew w).2 dbtype
      (MockClient.getDBPath env m (env.uuidString (env.uuidNew w).1))).1 with
  | error e => simp [ho] at hcreate
  | ok db =>
    simp only [ho, Outcome.returned.injEq, Option.some.injEq, and_true] at hcreate
    subst hcreate
    exact ⟨rfl, rfl, by simp [ho], db, by simp [ho]⟩

/-- C7: if `CreateDB(name)` returns a record, then `GetDB` on the record's id, called next,
returns a successful envelope (`Success = true`, no errors) whose record has that name and
that id, provided the one table-count query that this `GetDB` call issues, on the
connection `CreateDB` stored, succeeds and its rows scan.  The uuid package parses what it
prints, the id that `uuid.New` minted is not already registered under a name, and `range`
visits every entry once. -/
theorem CreateDB_then_GetDB {σ : Type} (env : Env σ) (w : σ) (m : MockClient) (name : String)
    (resp : APIResponse D1Database)
    (hparse : ∀ u, env.uuidParse (env.uuidString u) = .ok u)
    (hrange : ∀ (w : σ) (l : GoMap String), (env.rangeNameIDMap w l).1.Perm l)
    (hcreate : (MockClient.CreateDB env w m name).out = .returned (some resp) none)
    (hcount : ∀ db,
      (MockClient.CreateDB env w m name).client.ConnMap.get (env.uuidString resp.Result.UUID) =
        some db →
      ∃ rows n,
        (MockClient.tableCountQuery env (MockClient.CreateDB env w m name).world
          (MockClient.CreateDB env w m name).client (env.uuidString resp.Result.UUID) db).1 =
            .ok rows ∧
        MockClient.scanCount rows.cursor 0 = .ok n)
    (hfresh : ∀ e ∈ m.NameIDMap, e.2 ≠ env.uuidString resp.Result.UUID) :
    ∃ got, (MockClient.GetDB env (MockClient.CreateDB env w m name).world
          (MockClient.CreateDB env w m name).client (env.uuidString resp.Result.UUID)).out =
        .returned (some got) none ∧
      got.Success = true ∧ got.Errors = .null ∧ got.Errors.len = 0 ∧
      got.Result.Name = name ∧ got.Result.UUID = resp.Result.UUID := by
  obtain ⟨-, huid, hnames, db, hconn⟩ := CreateDB_ok_inv env w m name resp hcreate
  rw [huid] at hfresh hcount ⊢
  have hget : (MockClient.CreateDB env w m name).client.ConnMap.get
      (env.uuidString (env.uuidNew w).1) = some db := by
    rw [hconn]
    exact GoMap.get_set_self _ _ _
  obtain ⟨got, hout, hs, he, hn, hu⟩ := GetDB_ok env (MockClient.CreateDB env w m name).world
    (MockClient.CreateDB env w m name).client (env.uuidString (env.uuidNew w).1) name db
    (env.uuidNew w).1 hrange (hcount db hget) hget
    (hparse _)
    (by rw [hnames]; exact List.mem_cons_self _ _)
    (by
      rw [hnames]
      intro e he hid
      rcases List.mem_cons.1 he with rfl | he2
      · rfl
      · exact absurd hid (hfresh e (GoMap.mem_of_mem_delete _ _ _ he2)))
  exact ⟨got, hout, hs, he, by rw [he]; rfl, hn, hu⟩

theorem demoEnv_parse (u : UUID) : demoEnv.uuidParse (demoEnv.uuidString u) = .ok u := by
  simp [demoEnv]

theorem demoEnv_range (w : DemoWorld) (l : GoMap String) :
    (demoEnv.rangeNameIDMap w l).1.Perm l :=
  List.reverse_perm l

theorem demoEnv_count (w : DemoWorld) (db : Conn) :
    ∃ rows n, (demoEnv.dbQuery w db countTablesSQL []).1 = .ok rows ∧
      MockClient.scanCount rows.cursor 0 = .ok n :=
  ⟨{ Columns := .ok ["count(*)"], cursor := [{ scanAny := .ok [.int 0], scanInt := .ok 0 }] },
    0, by simp [demoEnv], rfl⟩

/-- C7, at a concrete input: `CreateDB("t1")` on the fresh demonstration emulator mints id
"u" (the UUID 1), and `GetDB("u")` then returns the record named "t1". -/
theorem CreateDB_then_GetDB_witness :
    ∃ got, (MockClient.GetDB demoEnv demoCreated.world demoCreated.client "u").out =
        .returned (some got) none ∧
      got.Success = true ∧ got.Errors = .null ∧ got.Errors.len = 0 ∧
      got.Result.Name = "t1" ∧ got.Result.UUID = ⟨1⟩ :=
  CreateDB_then_GetDB demoEnv demoWorld demoClient "t1"
    { Result :=
        { CreatedAt := "2024-01-01T00:00:00Z", FileSize := 0, Name := "t1", NumTables := 0,
          ReadReplication := { Mode := ReadReplicationModeDisabled }, UUID := ⟨1⟩,
          Version := "1.0.0" }
      Success := true, Messages := .null, Errors := .null }
    demoEnv_parse demoEnv_range (by decide) (fun db _ => demoEnv_count _ db)
    (fun e he => absurd he (List.not_mem_nil e))

theorem GoMap.delete_eq_self {ν : Type} (m : GoMap ν) (k : String)
    (h : ∀ e ∈ m, e.1 ≠ k) : GoMap.delete m k = m := by
  unfold GoMap.delete
  rw [List.filter_eq_self]
  intro e he
  simpa using h e he

/-- C11, as stated, fails: the select on the empty `test_table` returns a successful envelope
whose single query result has the nil slice as payload; it is not the empty non-nil slice,
and it encodes as `null`, not as `[]`. -/
theorem QueryDB_empty_table_payload_is_nil :
    (MockClient.QueryDB demoEnvB demoCreated.world demoCreated.client "u"
        "SELECT * FROM test_table" []).out =
      .returned
        (some
          { Result := .elems
              [{ Meta :=
                   { ChangedDB := false, Changes := 0, Duration := ⟨1, -1⟩, LastRowID := 0,
                     RowsRead := 0, RowsWritten := 0, ServedByPrimary := true,
                     ServedByRegion := "mock-region", SizeAfter := 1024,
                     Timings := some { SQLDurationMS := ⟨1, -1⟩ } }
                 Results := .rows .null
                 Success := true }]
            Success := true, Messages := .null, Errors := .null })
        none ∧
    Results.rows (Slice.null : Slice Row) ≠ .rows (.elems []) ∧
    (Slice.null : Slice Row).isNil = true ∧
    jsonEmptyResults (.rows .null) = some "null" ∧
    jsonEmptyResults (.rows .null) ≠ some "[]" := by
  decide

/-- C11, amended: a read statement on a known id that the engine executes and that returns
zero rows gives a successful envelope with one query result whose payload is a sequence of
length 0, namely the nil slice, which encodes as `null`. -/
theorem QueryDB_read_zero_rows {σ : Type} (env : Env σ) (w : σ) (m : MockClient)
    (dbID q : String) (params : List Value) (db : Conn) (rows : Rows)
    (columns : List String)
    (hread : stringsContains (stringsToLower env.lowerTable q) "select" = true)
    (hid : m.ConnMap.get dbID = some db)
    (hq : (env.dbQuery w db q params).1 = .ok rows)
    (hcols : rows.Columns = .ok columns)
    (hzero : rows.cursor = []) :
    ∃ resp qr, (MockClient.QueryDB env w m dbID q params).out = .returned (some resp) none ∧
      resp.Success = true ∧
      resp.Result = .elems [qr] ∧
      qr.Results = .rows .null ∧
      qr.Results.len = 0 ∧
      jsonEmptyResults qr.Results = some "null" := by
  refine ⟨?resp, ?qr, ?out, ?_, ?res, ?_, ?_, ?_⟩
  case out =>
    simp only [MockClient.QueryDB, hread, if_true, MockClient.query, hid, hq, hcols, hzero,
      MockClient.scanRows]
    exact rfl
  case res => exact rfl
  all_goals rfl

/-- C11 amended, at a concrete input: the select on the empty `test_table`. -/
theorem QueryDB_read_zero_rows_witness :
    ∃ resp qr,
      (MockClient.QueryDB demoEnvB demoCreated.world demoCreated.client "u"
        "SELECT * FROM test_table" []).out = .returned (some resp) none ∧
      resp.Success = true ∧
      resp.Result = .elems [qr] ∧
      qr.Results = .rows .null ∧
      qr.Results.len = 0 ∧
      jsonEmptyResults qr.Results = some "null" :=
  QueryDB_read_zero_rows demoEnvB demoCreated.world demoCreated.client "u"
    "SELECT * FROM test_table" [] ⟨1⟩
    { Columns := .ok ["id", "name", "verified"], cursor := [] } ["id", "name", "verified"]
    (by decide) (by decide) rfl rfl rfl

/-! ## Row records -/

theorem coerce_ne_bytes (v : Value) (b : List Nat) : MockClient.coerce v ≠ .bytes b := by
  cases v <;> simp [MockClient.coerce]

theorem coerce_of_ne_bytes (v : Value) (h : ∀ b, v ≠ .bytes b) : MockClient.coerce v = v := by
  cases v <;> first | rfl | exact absurd rfl (h _)

theorem GoMap.get_set_ne {ν : Type} (m : GoMap ν) (k1 k : String) (v : ν) (h : k1 ≠ k) :
    GoMap.get (GoMap.set m k1 v) k = GoMap.get m k := by
  have h2 : GoMap.get (GoMap.set m k1 v) k = GoMap.get (GoMap.delete m k1) k := by
    simp [GoMap.set, GoMap.get, h]
  rw [h2, GoMap.get_delete_ne m k1 k h]

theorem fillRow_get_of_not_mem (vals : List Value) (cols : List String) (c : String)
    (hc : c ∉ cols) (i : Nat) (row : Row) :
    GoMap.get (MockClient.fillRow vals cols i row) c = GoMap.get row c := by
  induction cols generalizing i row with
  | nil => rfl
  | cons col rest ih =>
    have h1 : col ≠ c := fun h => hc (h ▸ List.mem_cons_self _ _)
    have h2 : c ∉ rest := fun h => hc (List.mem_cons_of_mem _ h)
    rw [MockClient.fillRow, ih h2, GoMap.get_set_ne _ _ _ _ h1]

theorem fillRow_get_last (vals : List Value) (pre : List String) (c : String)
    (post : List String) (hc : c ∉ post) (i : Nat) (row : Row) :
    GoMap.get (MockClient.fillRow vals (pre ++ c :: post) i row) c =
      some (MockClient.coerce (vals.getD (i + pre.length) .null)) := by
  induction pre generalizing i row with
  | nil =>
    rw [List.nil_append, MockClient.fillRow, fillRow_get_of_not_mem vals post c hc,
      GoMap.get_set_self]
    rfl
  | cons p ps ih =>
    rw [List.cons_append, MockClient.fillRow, ih, List.length_cons]
    congr 3
    omega

theorem fillRow_no_bytes (vals : List Value) (cols : List String) (i : Nat) (row : Row)
    (hrow : ∀ e ∈ row, ∀ b, e.2 ≠ .bytes b) :
    ∀ e ∈ MockClient.fillRow vals cols i row, ∀ b, e.2 ≠ .bytes b := by
  induction cols generalizing i row with
  | nil => exact hrow
  | cons col rest ih =>
    rw [MockClient.fillRow]
    apply ih
    intro e he b
    rcases List.mem_cons.1 he with rfl | he2
    · exact coerce_ne_bytes _ b
    · exact hrow e (GoMap.mem_of_mem_delete _ _ _ he2) b

theorem fillRow_length (vals : List Value) (cols : List String) (hnd : cols.Nodup)
    (i : Nat) (row : Row) (hdisj : ∀ c ∈ cols, ∀ e ∈ row, e.1 ≠ c) :
    (MockClient.fillRow vals cols i row).length = row.length + cols.length := by
  induction cols generalizing i row with
  | nil => rfl
  | cons col rest ih =>
    have h := List.nodup_cons.1 hnd
    have hdel : GoMap.delete row col = row :=
      GoMap.delete_eq_self _ _ (hdisj col (List.mem_cons_self _ _))
    rw [MockClient.fillRow, ih h.2, GoMap.set, hdel, List.length_cons, List.length_cons]
    · omega
    · intro c hc e he
      rw [GoMap.set, hdel] at he
      rcases List.mem_cons.1 he with rfl | he2
      · intro h5
        have h6 : col = c := h5
        exact h.1 (h6 ▸ hc)
      · exact hdisj c (List.mem_cons_of_mem _ hc) e he2

theorem scanRows_no_bytes (columns : List String) (cursor : List Cursor) (acc s : Slice Row)
    (hs : MockClient.scanRows columns cursor acc = .ok s)
    (hacc : ∀ row ∈ acc.toList, ∀ e ∈ row, ∀ b, e.2 ≠ .bytes b) :
    ∀ row ∈ s.toList, ∀ e ∈ row, ∀ b, e.2 ≠ Value.bytes b := by
  induction cursor generalizing acc with
  | nil =>
    simp only [MockClient.scanRows, Except.ok.injEq] at hs
    rw [← hs]
    exact hacc
  | cons c rest ih =>
    rw [MockClient.scanRows] at hs
    cases hv : c.scanAny with
    | error e => simp [hv] at hs
    | ok values =>
      simp only [hv] at hs
      apply ih _ hs
      intro row hrow
      rw [Slice.toList_append] at hrow
      rcases List.mem_append.1 hrow with h1 | h1
      · exact hacc row h1
      · rw [List.mem_singleton.1 h1]
        exact fillRow_no_bytes values columns 0 [] (fun e he => absurd he (List.not_mem_nil e))

theorem query_no_bytes {σ : Type} (env : Env σ) (w : σ) (m : MockClient) (dbID q : String)
    (params : List Value) (resp : APIResponse (Slice QueryResult)) (err : Option GoError)
    (hout : (MockClient.query env w m dbID q params).out = .returned (some resp) err) :
    ∀ qr ∈ resp.Result.toList, ∀ row ∈ qr.Results.toList, ∀ e ∈ row, ∀ b,
      e.2 ≠ Value.bytes b := by
  unfold MockClient.query at hout
  cases h1 : m.ConnMap.get dbID with
  | none => simp [h1] at hout
  | some db =>
    simp only [h1] at hout
    cases h2 : (env.dbQuery w db q params).1 with
    | error e =>
      simp only [h2, Outcome.returned.injEq, Option.some.injEq] at hout
      intro qr hqr
      rw [← hout.1] at hqr
      exact absurd hqr (List.not_mem_nil qr)
    | ok rows =>
      simp only [h2] at hout
      cases h3 : rows.Columns with
      | error e => simp [h3] at hout
      | ok columns =>
        simp only [h3] at hout
        cases h4 : MockClient.scanRows columns rows.cursor .null with
        | error e => simp [h4] at hout
        | ok results =>
          simp only [h4, Outcome.returned.injEq, Option.some.injEq] at hout
          intro qr hqr row hrow
          rw [← hout.1] at hqr
          rw [List.mem_singleton.1 hqr] at hrow
          exact scanRows_no_bytes columns rows.cursor .null results h4
            (fun r hr => absurd hr (List.not_mem_nil r)) row hrow

theorem exec_no_rows {σ : Type} (env : Env σ) (w : σ) (m : MockClient) (dbID q : String)
    (params : List Value) (resp : APIResponse (Slice QueryResult)) (err : Option GoError)
    (hout : (MockClient.exec env w m dbID q params).out = .returned (some resp) err) :
    ∀ qr ∈ resp.Result.toList, qr.Results.toList = [] := by
  unfold MockClient.exec at hout
  cases h1 : m.ConnMap.get dbID with
  | none => simp [h1] at hout
  | some db =>
    simp only [h1] at hout
    cases h2 : (env.dbExec w db q params).1 with
    | error e =>
      simp only [h2, Outcome.returned.injEq, Option.some.injEq] at hout
      intro qr hqr
      rw [← hout.1] at hqr
      exact absurd hqr (List.not_mem_nil qr)
    | ok result =>
      simp only [h2] at hout
      cases h3 : result.LastInsertId with
      | panic msg => simp [h3] at hout
      | error e => simp [h3] at hout
      | ok last =>
        simp only [h3] at hout
        cases h4 : result.RowsAffected with
        | panic msg => simp [h4] at hout
        | error e => simp [h4] at hout
        | ok affected =>
          simp only [h4, Outcome.returned.injEq, Option.some.injEq] at hout
          intro qr hqr
          rw [← hout.1] at hqr
          rw [List.mem_singleton.1 hqr]
          rfl

/-- C12, as stated, fails: for the row of `SELECT 1 AS a, 2 AS a`, with column names
"a", "a" and values 1, 2, the row record has the single entry "a" ↦ 2; it does not map the
first column name to the first value. -/
theorem row_record_duplicate_column_names :
    (MockClient.QueryDB demoEnvB demoCreated.world demoCreated.client "u"
        "SELECT 1 AS a, 2 AS a" []).out =
      .returned
        (some
          { Result := .elems
              [{ Meta :=
                   { ChangedDB := false, Changes := 0, Duration := ⟨1, -1⟩, LastRowID := 0,
                     RowsRead := 1, RowsWritten := 0, ServedByPrimary := true,
                     ServedByRegion := "mock-region", SizeAfter := 1024,
                     Timings := some { SQLDurationMS := ⟨1, -1⟩ } }
                 Results := .rows (.elems [[("a", .int 2)]])
                 Success := true }]
            Success := true, Messages := .null, Errors := .null })
        none ∧
    MockClient.fillRow [.int 1, .int 2] ["a", "a"] 0 [] = [("a", .int 2)] ∧
    GoMap.get (MockClient.fillRow [.int 1, .int 2] ["a", "a"] 0 []) "a" ≠
      some (MockClient.coerce (.int 1)) := by
  decide

/-- C12, amended: the row record built from column names `columns` and scanned values
`vals` maps a column name to the value of the last column of that name, a byte sequence
replaced by its text form and every other value unchanged; when the column names are
pairwise distinct, it maps each name to the value at its position and has exactly as many
entries as there are columns; and no value of a row record in an envelope returned by
`QueryDB` is a byte sequence. -/
theorem row_record_by_column_name {σ : Type} (env : Env σ) (w : σ) (m : MockClient)
    (dbID q : String) (params : List Value) (vals : List Value) (columns : List String) :
    (∀ pre c post, columns = pre ++ c :: post → c ∉ post →
      GoMap.get (MockClient.fillRow vals columns 0 []) c =
        some (MockClient.coerce (vals.getD pre.length .null))) ∧
    (∀ b, MockClient.coerce (.bytes b) = .text b) ∧
    (∀ v, (∀ b, v ≠ .bytes b) → MockClient.coerce v = v) ∧
    (columns.Nodup →
      (MockClient.fillRow vals columns 0 []).length = columns.length ∧
      ∀ pre c post, columns = pre ++ c :: post →
        GoMap.get (MockClient.fillRow vals columns 0 []) c =
          some (MockClient.coerce (vals.getD pre.length .null))) ∧
    (∀ e ∈ MockClient.fillRow vals columns 0 [], ∀ b, e.2 ≠ .bytes b) ∧
    (∀ resp err, (MockClient.QueryDB env w m dbID q params).out = .returned (some resp) err →
      ∀ qr ∈ resp.Result.toList, ∀ row ∈ qr.Results.toList, ∀ e ∈ row, ∀ b,
        e.2 ≠ Value.bytes b) := by
  have hlast : ∀ pre c post, columns = pre ++ c :: post → c ∉ post →
      GoMap.get (MockClient.fillRow vals columns 0 []) c =
        some (MockClient.coerce (vals.getD pre.length .null)) := by
    intro pre c post hcols hc
    rw [hcols, fillRow_get_last vals pre c post hc 0 [], Nat.zero_add]
  refine ⟨hlast, fun _ => rfl, coerce_of_ne_bytes, ?_, ?_, ?_⟩
  · intro hnd
    refine ⟨?_, ?_⟩
    · rw [fillRow_length vals columns hnd 0 [] (fun _ _ e he => absurd he (List.not_mem_nil e))]
      simp
    · intro pre c post hcols
      apply hlast pre c post hcols
      rw [hcols] at hnd
      exact (List.nodup_cons.1 (List.nodup_append.1 hnd).2.1).1
  · exact fillRow_no_bytes vals columns 0 [] (fun e he => absurd he (List.not_mem_nil e))
  · intro resp err hout qr hqr row hrow
    unfold MockClient.QueryDB at hout
    split at hout
    · exact query_no_bytes env w m dbID q params resp err hout qr hqr row hrow
    · rw [exec_no_rows env w m dbID q params resp err hout qr hqr] at hrow
      exact absurd hrow (List.not_mem_nil row)

/-- C12 amended, at a concrete input: the first row of the test table, with the name
column scanned as bytes. -/
theorem row_record_by_column_name_witness :
    GoMap.get (MockClient.fillRow [.int 1, .bytes [97, 108, 105, 99, 101]] ["id", "name"] 0 [])
        "name" = some (.text [97, 108, 105, 99, 101]) ∧
    GoMap.get (MockClient.fillRow [.int 1, .bytes [97, 108, 105, 99, 101]] ["id", "name"] 0 [])
        "id" = some (.int 1) ∧
    (MockClient.fillRow [.int 1, .bytes [97, 108, 105, 99, 101]] ["id", "name"] 0 []).length =
      2 :=
  ⟨(row_record_by_column_name demoEnv demoWorld demoClient "u" "SELECT * FROM test_table" []
      [.int 1, .bytes [97, 108, 105, 99, 101]] ["id", "name"]).1 ["id"] "name" [] rfl
      (List.not_mem_nil _),
   (row_record_by_column_name demoEnv demoWorld demoClient "u" "SELECT * FROM test_table" []
      [.int 1, .bytes [97, 108, 105, 99, 101]] ["id", "name"]).1 [] "id" ["name"] rfl
      (by decide),
   ((row_record_by_column_name demoEnv demoWorld demoClient "u" "SELECT * FROM test_table" []
      [.int 1, .bytes [97, 108, 105, 99, 101]] ["id", "name"]).2.2.2.1 (by decide)).1⟩

/-! ## The envelope invariant -/

theorem envelope_of_success {T : Type} (isDefault : T → Prop) (r : T) :
    EnvelopeInvariant isDefault
      { Result := r, Success := true, Messages := .null, Errors := .null } :=
  ⟨fun _ => rfl, fun hf => Bool.noConfusion hf⟩

theorem envelope_of_failure {T : Type} (isDefault : T → Prop) (r : T) (e : APIError)
    (hr : isDefault r) :
    EnvelopeInvariant isDefault
      { Result := r, Success := false, Messages := .null, Errors := .elems [e] } :=
  ⟨fun hf => Bool.noConfusion hf, fun _ => ⟨Nat.succ_ne_zero 0, hr⟩⟩

theorem CreateDB_envelope {σ : Type} (env : Env σ) (w : σ) (m : MockClient) (name : String)
    (resp : APIResponse D1Database) (err : Option GoError)
    (h : (MockClient.CreateDB env w m name).out = .returned (some resp) err) :
    EnvelopeInvariant (fun d => d = D1Database.zero) resp := by
  unfold MockClient.CreateDB at h
  dsimp only at h
  split at h
  · simp at h
  · simp only [Outcome.returned.injEq, Option.some.injEq] at h
    rw [← h.1]
    exact ⟨fun _ => rfl, fun hf => by simp at hf⟩

theorem DeleteDB_envelope {σ : Type} (env : Env σ) (w : σ) (m : MockClient) (dbID : String)
    (resp : APIResponse DeleteResult) (err : Option GoError)
    (h : (MockClient.DeleteDB env w m dbID).out = .returned (some resp) err) :
    EnvelopeInvariant (fun _ => True) resp := by
  unfold MockClient.DeleteDB at h
  dsimp only at h
  split at h
  · simp at h
  · split at h
    · simp at h
    · simp only [Outcome.returned.injEq, Option.some.injEq] at h
      rw [← h.1]
      exact ⟨fun _ => rfl, fun hf => by simp at hf⟩

theorem GetDB_envelope {σ : Type} (env : Env σ) (w : σ) (m : MockClient) (dbID : String)
    (resp : APIResponse D1Database) (err : Option GoError)
    (h : (MockClient.GetDB env w m dbID).out = .returned (some resp) err) :
    EnvelopeInvariant (fun d => d = D1Database.zero) resp := by
  unfold MockClient.GetDB at h
  dsimp only at h
  repeat' split at h
  all_goals simp only [Outcome.returned.injEq, Option.some.injEq, reduceCtorEq, false_and] at h
  all_goals rw [← h.1]
  all_goals exact envelope_of_success _ _

theorem ListDB_envelope {σ : Type} (env : Env σ) (w : σ) (m : MockClient)
    (resp : APIResponse (Slice D1Database)) (err : Option GoError)
    (h : (MockClient.ListDB env w m).out = .returned (some resp) err) :
    EnvelopeInvariant (fun l => l.len = 0) resp := by
  unfold MockClient.ListDB at h
  dsimp only at h
  split at h
  · simp at h
  · simp only [Outcome.returned.injEq, Option.some.injEq] at h
    rw [← h.1]
    exact ⟨fun _ => rfl, fun hf => by simp at hf⟩

theorem query_envelope {σ : Type} (env : Env σ) (w : σ) (m : MockClient) (dbID q : String)
    (params : List Value) (resp : APIResponse (Slice QueryResult)) (err : Option GoError)
    (h : (MockClient.query env w m dbID q params).out = .returned (some resp) err) :
    EnvelopeInvariant (fun l => l.len = 0) resp := by
  unfold MockClient.query at h
  dsimp only at h
  repeat' split at h
  all_goals simp only [Outcome.returned.injEq, Option.some.injEq, reduceCtorEq, false_and] at h
  all_goals rw [← h.1]
  · exact envelope_of_failure _ _ _ rfl
  · exact envelope_of_success _ _

theorem exec_envelope {σ : Type} (env : Env σ) (w : σ) (m : MockClient) (dbID q : String)
    (params : List Value) (resp : APIResponse (Slice QueryResult)) (err : Option GoError)
    (h : (MockClient.exec env w m dbID q params).out = .returned (some resp) err) :
    EnvelopeInvariant (fun l => l.len = 0) resp := by
  unfold MockClient.exec at h
  dsimp only at h
  repeat' split at h
  all_goals simp only [Outcome.returned.injEq, Option.some.injEq, reduceCtorEq, false_and] at h
  all_goals rw [← h.1]
  · exact envelope_of_failure _ _ _ rfl
  · exact envelope_of_success _ _

/-- C13: every envelope returned by `CreateDB`, `DeleteDB`, `UpdateDB`, `GetDB`, `ListDB`,
`QueryDB` or `QueryDBRaw`, in every state and environment, satisfies the envelope
invariant: `Success = true` implies no errors; `Success = false` implies at least one error
and a default payload (the zero `D1Database`, or a sequence of length 0). -/
theorem envelope_invariant_of_every_operation {σ : Type} (env : Env σ) (w : σ)
    (m : MockClient) (name dbID q : String) (settings : DBSettings) (params : List Value) :
    (∀ resp err, (MockClient.CreateDB env w m name).out = .returned (some resp) err →
      EnvelopeInvariant (fun d => d = D1Database.zero) resp) ∧
    (∀ resp err, (MockClient.DeleteDB env w m dbID).out = .returned (some resp) err →
      EnvelopeInvariant (fun _ => True) resp) ∧
    (∀ resp err, (MockClient.UpdateDB env w m dbID settings).out = .returned (some resp) err →
      EnvelopeInvariant (fun d => d = D1Database.zero) resp) ∧
    (∀ resp err, (MockClient.GetDB env w m dbID).out = .returned (some resp) err →
      EnvelopeInvariant (fun d => d = D1Database.zero) resp) ∧
    (∀ resp err, (MockClient.ListDB env w m).out = .returned (some resp) err →
      EnvelopeInvariant (fun l => l.len = 0) resp) ∧
    (∀ resp err, (MockClient.QueryDB env w m dbID q params).out = .returned (some resp) err →
      EnvelopeInvariant (fun l => l.len = 0) resp) ∧
    (∀ resp err, (MockClient.QueryDBRaw env w m dbID q params).out = .returned (some resp) err →
      EnvelopeInvariant (fun l => l.len = 0) resp) := by
  have hquery : ∀ resp err,
      (MockClient.QueryDB env w m dbID q params).out = .returned (some resp) err →
        EnvelopeInvariant (fun l => l.len = 0) resp := by
    intro resp err h
    unfold MockClient.QueryDB at h
    split at h
    · exact query_envelope env w m dbID q params resp err h
    · exact exec_envelope env w m dbID q params resp err h
  refine ⟨CreateDB_envelope env w m name, DeleteDB_envelope env w m dbID, ?_,
    GetDB_envelope env w m dbID, ListDB_envelope env w m, hquery, hquery⟩
  intro resp err h
  simp only [MockClient.UpdateDB, Outcome.returned.injEq, Option.some.injEq] at h
  rw [← h.1]
  exact envelope_of_failure _ _ _ rfl

/-- C13, at concrete inputs: the failure envelope of `UpdateDB`, and the envelope of the
malformed insert. -/
theorem envelope_invariant_witness :
    EnvelopeInvariant (fun d => d = D1Database.zero)
      { Result := D1Database.zero, Success := false, Messages := .null,
        Errors := .elems
          [{ Code := 1000,
             Message := "There is no concept of replication modes in local sqlite" }] } ∧
    EnvelopeInvariant (fun l : Slice QueryResult => l.len = 0)
      (rejectedEnvelope "SQL logic error: no such column") :=
  ⟨(envelope_invariant_of_every_operation demoEnv demoCreated.world demoCreated.client "t2" "u"
      "INSERT INTO test_table (foo, bar, baz) VALUES (1, 2, 3)" { Replication := 0 }
      []).2.2.1 _ none rfl,
   (envelope_invariant_of_every_operation demoEnv demoCreated.world demoCreated.client "t2" "u"
      "INSERT INTO test_table (foo, bar, baz) VALUES (1, 2, 3)" { Replication := 0 }
      []).2.2.2.2.2.1 _ none (by decide)⟩

/-! ## Closing the session -/

theorem closeEach_stops_at_error {σ : Type} (env : Env σ) (pre : List (String × Conn)) :
    ∀ (w w1 : σ), MockClient.closeEach env w pre = (none, w1) →
      ∀ (id : String) (c : Conn) (rest : List (String × Conn)) (e : GoError),
        (env.dbClose w1 c).1 = some e →
        MockClient.closeEach env w (pre ++ (id, c) :: rest) = (some e, (env.dbClose w1 c).2) := by
  induction pre with
  | nil =>
    intro w w1 hpre id c rest e herr
    simp only [MockClient.closeEach, Prod.mk.injEq, true_and] at hpre
    subst hpre
    simp [MockClient.closeEach, herr]
  | cons p ps ih =>
    intro w w1 hpre id c rest e herr
    obtain ⟨i0, c0⟩ := p
    simp only [MockClient.closeEach] at hpre
    cases h0 : (env.dbClose w c0).1 with
    | some e0 => simp [h0] at hpre
    | none =>
      simp only [h0] at hpre
      simp only [List.cons_append, MockClient.closeEach, h0]
      exact ih _ _ hpre id c rest e herr

/-- C14 (what the code does): when `Close` visits the connections `pre`, then `c`, then
`rest`, the closes of `pre` succeed and the close of `c` returns the error `e`, `Close`
returns `e` at once; the world it leaves is the one right after the failed close, so no
connection of `rest` has been closed. -/
theorem Close_returns_at_first_error {σ : Type} (env : Env σ) (w w1 : σ) (m : MockClient)
    (pre rest : List (String × Conn)) (id : String) (c : Conn) (e : GoError)
    (horder : (env.rangeConnMap w m.ConnMap).1 = pre ++ (id, c) :: rest)
    (hpre : MockClient.closeEach env (env.rangeConnMap w m.ConnMap).2 pre = (none, w1))
    (herr : (env.dbClose w1 c).1 = some e) :
    MockClient.Close env w m = (some e, (env.dbClose w1 c).2) := by
  unfold MockClient.Close
  simp only [horder]
  exact closeEach_stops_at_error env pre _ w1 hpre id c rest e herr

/-- C14, at a concrete input: a session owning the connections 3, 1 and 2, where closing
connection 1 fails: `Close` returns the error after closing connection 3 only, and
connection 2 is still open. -/
theorem Close_leaves_connection_open :
    MockClient.Close trackEnv [] threeConnections = (some "sqlite: close failed", [3]) ∧
    2 ∉ (MockClient.Close trackEnv [] threeConnections).2 :=
  ⟨Close_returns_at_first_error trackEnv [] [3] threeConnections [("uuu", ⟨3⟩)] [("uu", ⟨2⟩)]
      "u" ⟨1⟩ "sqlite: close failed" rfl rfl rfl,
   by decide⟩

/-! ## The replication mode on the wire -/

/-- C15: `String(r)` is "auto" for `ReadReplicationModeAuto` and "disabled" for every other
value, so the wire form is one of the two strings; `UnmarshalJSON` of `MarshalJSON(r)` gives
`r` back for the two defined modes and `ReadReplicationModeDisabled` for every other integer
value, whatever the receiver held; and `UnmarshalJSON` of a JSON string other than "auto"
gives `ReadReplicationModeDisabled`.  Package encoding/json marshals the two mode names and
reads them back. -/
theorem ReadReplicationMode_wire_form (codec : JSONCodec) (r r0 : ReadReplicationMode)
    (data : JSONData) (str : String)
    (hround : ∀ s, s = "auto" ∨ s = "disabled" →
      ∃ d, codec.marshalString s = .ok d ∧ codec.unmarshalString d = .ok s) :
    (r = ReadReplicationModeAuto → ReadReplicationMode.String r = "auto") ∧
    (r ≠ ReadReplicationModeAuto → ReadReplicationMode.String r = "disabled") ∧
    (ReadReplicationMode.String r = "auto" ∨ ReadReplicationMode.String r = "disabled") ∧
    ((r = ReadReplicationModeAuto ∨ r = ReadReplicationModeDisabled) →
      ∃ d, ReadReplicationMode.MarshalJSON codec r = .ok d ∧
        ReadReplicationMode.UnmarshalJSON codec r0 d = (r, none)) ∧
    ((r ≠ ReadReplicationModeAuto ∧ r ≠ ReadReplicationModeDisabled) →
      ∃ d, ReadReplicationMode.MarshalJSON codec r = .ok d ∧
        ReadReplicationMode.UnmarshalJSON codec r0 d = (ReadReplicationModeDisabled, none)) ∧
    (codec.unmarshalString data = .ok str → str ≠ "auto" →
      ReadReplicationMode.UnmarshalJSON codec r0 data = (ReadReplicationModeDisabled, none)) := by
  have hauto : ∀ x : ReadReplicationMode, x = ReadReplicationModeAuto →
      ∃ d, ReadReplicationMode.MarshalJSON codec x = .ok d ∧
        ReadReplicationMode.UnmarshalJSON codec r0 d = (ReadReplicationModeAuto, none) := by
    intro x hx
    obtain ⟨d, hm, hu⟩ := hround "auto" (Or.inl rfl)
    refine ⟨d, ?_, ?_⟩
    · simp [ReadReplicationMode.MarshalJSON, ReadReplicationMode.String, hx, hm]
    · simp [ReadReplicationMode.UnmarshalJSON, hu]
  have hother : ∀ x : ReadReplicationMode, x ≠ ReadReplicationModeAuto →
      ∃ d, ReadReplicationMode.MarshalJSON codec x = .ok d ∧
        ReadReplicationMode.UnmarshalJSON codec r0 d = (ReadReplicationModeDisabled, none) := by
    intro x hx
    obtain ⟨d, hm, hu⟩ := hround "disabled" (Or.inr rfl)
    refine ⟨d, ?_, ?_⟩
    · simp [ReadReplicationMode.MarshalJSON, ReadReplicationMode.String, hx, hm]
    · simp [ReadReplicationMode.UnmarshalJSON, hu]
  refine ⟨?_, ?_, ?_, ?_, ?_, ?_⟩
  · intro h
    simp [ReadReplicationMode.String, h]
  · intro h
    simp [ReadReplicationMode.String, h]
  · by_cases h : r = ReadReplicationModeAuto
    · exact Or.inl (by simp [ReadReplicationMode.String, h])
    · exact Or.inr (by simp [ReadReplicationMode.String, h])
  · rintro (h | h)
    · rw [h]
      exact hauto _ rfl
    · rw [h]
      exact hother _ (by decide)
  · intro h
    exact hother r h.1
  · intro hd hs
    simp [ReadReplicationMode.UnmarshalJSON, hd, hs]

/-- C15, at concrete inputs: the round trip of the two modes, the value 7, which is written
as "disabled" and read back as `ReadReplicationModeDisabled`, and the JSON string "AUTO". -/
theorem ReadReplicationMode_wire_form_witness :
    (∃ d, ReadReplicationMode.MarshalJSON demoCodec 0 = .ok d ∧
      ReadReplicationMode.UnmarshalJSON demoCodec 1 d = (0, none)) ∧
    (∃ d, ReadReplicationMode.MarshalJSON demoCodec 1 = .ok d ∧
      ReadReplicationMode.UnmarshalJSON demoCodec 0 d = (1, none)) ∧
    (∃ d, ReadReplicationMode.MarshalJSON demoCodec 7 = .ok d ∧
      ReadReplicationMode.UnmarshalJSON demoCodec 0 d = (ReadReplicationModeDisabled, none)) ∧
    ReadReplicationMode.UnmarshalJSON demoCodec 0 "\x22AUTO\x22" =
      (ReadReplicationModeDisabled, none) :=
  have hround : ∀ s, s = "auto" ∨ s = "disabled" →
      ∃ d, demoCodec.marshalString s = .ok d ∧ demoCodec.unmarshalString d = .ok s :=
    fun s hs => hs.elim (fun h => h ▸ ⟨_, rfl, rfl⟩) (fun h => h ▸ ⟨_, rfl, rfl⟩)
  ⟨(ReadReplicationMode_wire_form demoCodec 0 1 "null" "" hround).2.2.2.1 (Or.inl rfl),
   (ReadReplicationMode_wire_form demoCodec 1 0 "null" "" hround).2.2.2.1 (Or.inr rfl),
   (ReadReplicationMode_wire_form demoCodec 7 0 "null" "" hround).2.2.2.2.1
      ⟨by decide, by decide⟩,
   (ReadReplicationMode_wire_form demoCodec 0 0 "\x22AUTO\x22" "AUTO" hround).2.2.2.2.2 rfl
      (by decide)⟩

/-! ## A cursor that ends on an error -/

/-- C2 (what the code does): a read statement on a known id whose execution the engine
fails in the middle of the cursor (`db.Query` and `rows.Columns` succeed, `vals.length`
rows are scanned, then `rows.Next()` reports false and `rows.Err()` is `e`) is not
reported as a failure.  `query` never reads `rows.Err()`: `QueryDB` returns an envelope
with `Success = true` and no errors, whose one query result holds the rows read before
the failure; it is not the failure envelope for `e`. -/
theorem QueryDB_cursor_error_unreported {σ : Type} (env : Env σ) (w : σ) (m : MockClient)
    (dbID q : String) (params : List Value) (db : Conn) (rows : Rows)
    (columns : List String) (vals : List (List Value)) (e : GoError)
    (hread : stringsContains (stringsToLower env.lowerTable q) "select" = true)
    (hid : m.ConnMap.get dbID = some db)
    (hq : (env.dbQuery w db q params).1 = .ok rows)
    (hcols : rows.Columns = .ok columns)
    (hscan : rows.cursor.map (fun c => c.scanAny) = vals.map .ok)
    (_herr : rows.Err = some e) :
    (∃ resp qr recs,
      (MockClient.QueryDB env w m dbID q params).out = .returned (some resp) none ∧
      resp.Success = true ∧
      resp.Errors = .null ∧
      resp.Errors.len = 0 ∧
      resp.Result = .elems [qr] ∧
      resp.Result.len = 1 ∧
      qr.Success = true ∧
      qr.Results = .rows recs ∧
      recs.toList = vals.map (fun v => MockClient.fillRow v columns 0 [])) ∧
    (MockClient.QueryDB env w m dbID q params).out ≠
      .returned (some (rejectedEnvelope e)) none := by
  obtain ⟨s, hs, hl⟩ := scanRows_ok columns rows.cursor vals .null hscan
  have hl2 : s.toList = vals.map (fun v => MockClient.fillRow v columns 0 []) := by
    rw [hl]
    rfl
  have hout : (MockClient.QueryDB env w m dbID q params).out =
      .returned
        (some
          { Result := .elems
              [{ Meta :=
                   { ChangedDB := false, Changes := 0, Duration := ⟨1, -1⟩, LastRowID := 0,
                     RowsRead := s.len, RowsWritten := 0, ServedByPrimary := true,
                     ServedByRegion := "mock-region", SizeAfter := 1024,
                     Timings := some { SQLDurationMS := ⟨1, -1⟩ } }
                 Results := .rows s
                 Success := true }]
            Success := true, Messages := .null, Errors := .null })
        none := by
    simp only [MockClient.QueryDB, hread, if_true, MockClient.query, hid, hq, hcols, hs]
  refine ⟨⟨_, _, s, hout, rfl, rfl, rfl, rfl, rfl, rfl, rfl, hl2⟩, ?_⟩
  rw [hout]
  intro h
  simp [rejectedEnvelope] at h

/-- C2, at a concrete input: `SELECT abs(x) FROM t` yields the row 1 and then fails on an
integer overflow; `QueryDB` returns a successful envelope with that one row and no error. -/
theorem QueryDB_cursor_error_witness :
    (∃ resp qr recs,
      (MockClient.QueryDB demoEnvC demoCreated.world demoCreated.client "u"
        "SELECT abs(x) FROM t" []).out = .returned (some resp) none ∧
      resp.Success = true ∧
      resp.Errors = .null ∧
      resp.Errors.len = 0 ∧
      resp.Result = .elems [qr] ∧
      resp.Result.len = 1 ∧
      qr.Success = true ∧
      qr.Results = .rows recs ∧
      recs.toList = [[Value.int 1]].map (fun v => MockClient.fillRow v ["abs(x)"] 0 [])) ∧
    (MockClient.QueryDB demoEnvC demoCreated.world demoCreated.client "u"
        "SELECT abs(x) FROM t" []).out ≠
      .returned (some (rejectedEnvelope "integer overflow")) none :=
  QueryDB_cursor_error_unreported demoEnvC demoCreated.world demoCreated.client "u"
    "SELECT abs(x) FROM t" [] ⟨1⟩
    { Columns := .ok ["abs(x)"],
      cursor := [{ scanAny := .ok [.int 1], scanInt := .ok 1 }],
      Err := some "integer overflow" }
    ["abs(x)"] [[.int 1]] "integer overflow" (by decide) (by decide) rfl rfl rfl rfl

end D1
